import Mathlib

set_option maxRecDepth 100000

/-!
Verification of the self-correcting SQL pipeline of database-guru.

Shallow embedding of the Python sources:
  * `src/llm/self_correcting_agent.py`  (ErrorType, ErrorDiagnostics,
    SelfCorrectingSQLAgent.generate_and_execute_with_retry / execute_with_retry)
  * `src/llm/schema_aware_fixer.py`     (FuzzyMatcher, SchemaAwareFixer)
  * `src/llm/correction_learner.py`     (CorrectionLearner)
  * `src/llm/result_verification_agent.py` (ResultVerificationAgent)
together with a faithful functional embedding of CPython `difflib.SequenceMatcher`
(ratio with default `autojunk=True`, `isjunk=None`), which
`FuzzyMatcher.similarity` calls.

Modelling conventions:
  * Python `str` is Lean `String`; `str.lower()` is char-wise `Char.toLower`
    (the sources only handle ASCII identifiers and error texts).
  * Python floats are modelled as exact rationals `ℚ` (all confidences are
    small dyadic/decimal values; no claim depends on binary rounding).
  * `dict`-shaped results become fixed-shape structures holding exactly the
    keys the code reads.
  * Exceptions raised by external collaborators are `Except String`, the
    payload being Python's `str(e)`.
  * Wall-clock timestamps (`learned_at`, `last_applied_at`) and log output are
    omitted: nothing in the control flow reads them.
-/

namespace DatabaseGuru

/-! ### Basic character/string helpers shared by the embedded modules -/

/-- Python's `\s` class (ASCII fragment): space, tab, newline, CR, FF, VT. -/
def isSpaceCh (c : Char) : Bool :=
  c = ' ' ∨ c = '\t' ∨ c = '\n' ∨ c = '\r' ∨ c = Char.ofNat 11 ∨ c = Char.ofNat 12

/-- Python's `\w` / word character (ASCII fragment): letters, digits, underscore. -/
def isWordCh (c : Char) : Bool :=
  ('a' ≤ c ∧ c ≤ 'z') ∨ ('A' ≤ c ∧ c ≤ 'Z') ∨ ('0' ≤ c ∧ c ≤ '9') ∨ c = '_'

/-- Regex class `[a-zA-Z_]` (identifier start). -/
def isIdentStart (c : Char) : Bool :=
  ('a' ≤ c ∧ c ≤ 'z') ∨ ('A' ≤ c ∧ c ≤ 'Z') ∨ c = '_'

/-- Regex class `[a-zA-Z0-9_]` (identifier continuation). -/
def isIdentCont (c : Char) : Bool := isWordCh c

/-- Regex class `[a-z_]` used by the lower-cased extraction patterns. -/
def isIdentStartLower (c : Char) : Bool := ('a' ≤ c ∧ c ≤ 'z') ∨ c = '_'

/-- Regex class `[a-z0-9_]` used by the lower-cased extraction patterns. -/
def isIdentContLower (c : Char) : Bool :=
  ('a' ≤ c ∧ c ≤ 'z') ∨ ('0' ≤ c ∧ c ≤ '9') ∨ c = '_'

def isDigitCh (c : Char) : Bool := '0' ≤ c ∧ c ≤ '9'

/-- `p` is a prefix of `s` (character lists). -/
def leadsWith : List Char → List Char → Bool
  | [], _ => true
  | _ :: _, [] => false
  | p :: ps, c :: cs => p = c && leadsWith ps cs

/-- `p` is a prefix of `s`, comparing case-insensitively (`re.IGNORECASE`). -/
def leadsWithCI : List Char → List Char → Bool
  | [], _ => true
  | _ :: _, [] => false
  | p :: ps, c :: cs => p.toLower = c.toLower && leadsWithCI ps cs

/-- `pat` occurs as a contiguous substring of `s`. -/
def containsSub (pat : List Char) : List Char → Bool
  | [] => leadsWith pat []
  | c :: cs => leadsWith pat (c :: cs) || containsSub pat cs

/-- Python's `keyword in text` on strings. -/
def strContains (s pat : String) : Bool := containsSub pat.data s.data

/-- Python's `str.lower()` (char-wise; ASCII). -/
def lowerStr (s : String) : String := ⟨s.data.map Char.toLower⟩

/-! ### Executable rational arithmetic

Mathlib's `Rat` operations (`+`, `*`, `/`, `min`, `max`) are `irreducible`
and do not reduce inside `decide`; the embedded code therefore uses the
following `mkRat`-based equivalents (exact same rational values) wherever a
value must be computed inside a proof. -/

/-- `a + b` on ℚ, kernel-computable. -/
def qadd (a b : ℚ) : ℚ := mkRat (a.num * b.den + b.num * a.den) (a.den * b.den)

/-- `min a b` (Python `min`), kernel-computable. -/
def qmin (a b : ℚ) : ℚ := if a ≤ b then a else b

/-- `max a b` (Python `max`), kernel-computable. -/
def qmax (a b : ℚ) : ℚ := if b ≤ a then a else b

end DatabaseGuru

namespace DatabaseGuru.SelfCorrecting

open DatabaseGuru

/-- `ErrorType` enum of `self_correcting_agent.py`. -/
inductive ErrorType where
  | syntaxError
  | tableNotFound
  | columnNotFound
  | typeMismatch
  | permissionDenied
  | timeout
  | unknown
deriving DecidableEq, Repr

/-- The Python `ErrorType.value` strings. -/
def ErrorType.value : ErrorType → String
  | .syntaxError => "syntax_error"
  | .tableNotFound => "table_not_found"
  | .columnNotFound => "column_not_found"
  | .typeMismatch => "type_mismatch"
  | .permissionDenied => "permission_denied"
  | .timeout => "timeout"
  | .unknown => "unknown"

/-- `any(keyword in error_lower for keyword in kws)`. -/
def anyKeyword (errorLower : String) (kws : List String) : Bool :=
  kws.any (fun kw => strContains errorLower kw)

def syntaxKeywords : List String := ["syntax error", "syntax", "parse error", "unexpected"]
def tableKeywords : List String := ["table", "relation", "does not exist", "no such table"]
def columnKeywords : List String := ["column", "field", "unknown column", "no such column"]
def typeKeywords : List String := ["type", "cast", "conversion", "incompatible"]
def permissionKeywords : List String := ["permission", "denied", "access", "unauthorized"]
def timeoutKeywords : List String := ["timeout", "timed out", "exceeded"]

/-- `ErrorDiagnostics.categorize_error`: keyword groups tested in source order. -/
def categorize_error (error_message : String) : ErrorType :=
  let error_lower := lowerStr error_message
  if anyKeyword error_lower syntaxKeywords then .syntaxError
  else if anyKeyword error_lower tableKeywords then .tableNotFound
  else if anyKeyword error_lower columnKeywords then .columnNotFound
  else if anyKeyword error_lower typeKeywords then .typeMismatch
  else if anyKeyword error_lower permissionKeywords then .permissionDenied
  else if anyKeyword error_lower timeoutKeywords then .timeout
  else .unknown

/-- The classification, phrased the way the spec describes it: an explicitly
ordered rule list, first match wins, `Unknown` when no rule matches. -/
def classifierRules : List (List String × ErrorType) :=
  [(syntaxKeywords, .syntaxError), (tableKeywords, .tableNotFound),
   (columnKeywords, .columnNotFound), (typeKeywords, .typeMismatch),
   (permissionKeywords, .permissionDenied), (timeoutKeywords, .timeout)]

/-- First rule of `rules` whose keyword group matches; `Unknown` otherwise. -/
def firstMatch (errorLower : String) : List (List String × ErrorType) → ErrorType
  | [] => .unknown
  | (kws, et) :: rest =>
      if anyKeyword errorLower kws then et else firstMatch errorLower rest

end DatabaseGuru.SelfCorrecting

namespace DatabaseGuru.Difflib

open DatabaseGuru

/-!
Embedding of CPython `difflib.SequenceMatcher(None, a, b)` (isjunk=None,
autojunk=True) specialised to sequences of characters, as called by
`FuzzyMatcher.similarity`.  `b2j` is modelled extensionally as a function
from an element to its (ascending) list of positions in `b`, with popular
elements purged exactly as `__chain_b` does; `j2len` is modelled as a total
function `Nat → Nat` defaulting to 0 (`dict.get(j-1, 0)`).  With
`isjunk=None` the junk set `bjunk` is empty, so the `isbjunk` predicate is
the constant-false function.
-/

/-- Ascending positions of `c` in `b`: the `b2j` chain before purging. -/
def positions (b : List Char) (c : Char) : List Nat :=
  (List.range b.length).filter (fun j => b.getD j (Char.ofNat 0) = c)

/-- `__chain_b`'s autojunk rule: with `len(b) >= 200`, elements occupying
more than `n // 100 + 1` positions are "popular" and purged from `b2j`. -/
def isPopular (b : List Char) (c : Char) : Bool :=
  200 ≤ b.length && b.length / 100 + 1 < (positions b c).length

/-- The purged `b2j` mapping. -/
def b2j (b : List Char) (c : Char) : List Nat :=
  if isPopular b c then [] else positions b c

/-- `(besti, bestj, bestsize)` of `find_longest_match`. -/
structure Best where
  besti : Nat
  bestj : Nat
  bestsize : Nat
deriving DecidableEq, Repr

/-- `k = j2len.get(j-1, 0) + 1`, reading the previous row. -/
def rowK (j2len : Nat → Nat) (j : Nat) : Nat :=
  (if j = 0 then 0 else j2len (j - 1)) + 1

/-- The inner `for j in b2j.get(a[i], [])` loop restricted to `[blo, bhi)`
(the `continue`/`break` guards; position lists are ascending, so `break`
is the same as filtering), updating only the running best.  `newj2len` is
reconstructed separately by `newJ2len`: both read only the previous row's
`j2len`, exactly as the source does. -/
def rowBest (j2len : Nat → Nat) (i : Nat) : List Nat → Best → Best
  | [], best => best
  | j :: js, best =>
      let k := rowK j2len j
      let best' := if best.bestsize < k then Best.mk (i + 1 - k) (j + 1 - k) k else best
      rowBest j2len i js best'

/-- In-range positions for row `i`'s element. -/
def rowJs (b2jf : Char → List Nat) (blo bhi : Nat) (c : Char) : List Nat :=
  (b2jf c).filter (fun j => decide (blo ≤ j) && decide (j < bhi))

/-- The `newj2len` dict built during a row, as a total function. -/
def newJ2len (j2len : Nat → Nat) (js : List Nat) : Nat → Nat :=
  fun j => if j ∈ js then rowK j2len j else 0

/-- The outer `for i in range(alo, ahi)` loop of `find_longest_match`. -/
def dpLoop (a : List Char) (b2jf : Char → List Nat) (blo bhi : Nat) :
    List Nat → ((Nat → Nat) × Best) → ((Nat → Nat) × Best)
  | [], st => st
  | i :: rest, st =>
      let js := rowJs b2jf blo bhi (a.getD i (Char.ofNat 0))
      dpLoop a b2jf blo bhi rest (newJ2len st.1 js, rowBest st.1 i js st.2)

/-- The two downward `while` extension loops (`junkPhase = false` for the
non-junk phase, `true` for the junk phase); fuel bounds the descent of
`besti`. -/
def extendLower (a b : List Char) (isbjunk : Char → Bool) (junkPhase : Bool)
    (alo blo : Nat) : Nat → Best → Best
  | 0, best => best
  | fuel + 1, best =>
      if alo < best.besti ∧ blo < best.bestj ∧
         isbjunk (b.getD (best.bestj - 1) (Char.ofNat 0)) = junkPhase ∧
         a.getD (best.besti - 1) (Char.ofNat 0) = b.getD (best.bestj - 1) (Char.ofNat 0)
      then extendLower a b isbjunk junkPhase alo blo fuel
             (Best.mk (best.besti - 1) (best.bestj - 1) (best.bestsize + 1))
      else best

/-- The two upward `while` extension loops. -/
def extendUpper (a b : List Char) (isbjunk : Char → Bool) (junkPhase : Bool)
    (ahi bhi : Nat) : Nat → Best → Best
  | 0, best => best
  | fuel + 1, best =>
      if best.besti + best.bestsize < ahi ∧ best.bestj + best.bestsize < bhi ∧
         isbjunk (b.getD (best.bestj + best.bestsize) (Char.ofNat 0)) = junkPhase ∧
         a.getD (best.besti + best.bestsize) (Char.ofNat 0)
           = b.getD (best.bestj + best.bestsize) (Char.ofNat 0)
      then extendUpper a b isbjunk junkPhase ahi bhi fuel
             (Best.mk best.besti best.bestj (best.bestsize + 1))
      else best

/-- `find_longest_match(alo, ahi, blo, bhi)`. -/
def find_longest_match (a b : List Char) (b2jf : Char → List Nat)
    (isbjunk : Char → Bool) (alo ahi blo bhi : Nat) : Best :=
  let st := dpLoop a b2jf blo bhi (List.range' alo (ahi - alo)) (fun _ => 0, Best.mk alo blo 0)
  let b1 := extendLower a b isbjunk false alo blo st.2.besti st.2
  let b2 := extendUpper a b isbjunk false ahi bhi (ahi - (b1.besti + b1.bestsize)) b1
  let b3 := extendLower a b isbjunk true alo blo b2.besti b2
  extendUpper a b isbjunk true ahi bhi (ahi - (b3.besti + b3.bestsize)) b3

/-- Total size of all matching blocks of `get_matching_blocks` restricted to
the range `[alo,ahi) × [blo,bhi)`.  The source drives the recursion with an
explicit queue; the set of emitted blocks (and hence the sum of their sizes,
which is all `ratio` consumes) is that of this recursive split. -/
def matchesSum (a b : List Char) (b2jf : Char → List Nat) (isbjunk : Char → Bool) :
    Nat → Nat → Nat → Nat → Nat → Nat
  | 0, _, _, _, _ => 0
  | fuel + 1, alo, ahi, blo, bhi =>
      let m := find_longest_match a b b2jf isbjunk alo ahi blo bhi
      if m.bestsize = 0 then 0
      else
        (if alo < m.besti ∧ blo < m.bestj then
            matchesSum a b b2jf isbjunk fuel alo m.besti blo m.bestj
          else 0)
        + m.bestsize
        + (if m.besti + m.bestsize < ahi ∧ m.bestj + m.bestsize < bhi then
            matchesSum a b b2jf isbjunk fuel (m.besti + m.bestsize) ahi (m.bestj + m.bestsize) bhi
          else 0)

/-- `SequenceMatcher.ratio()` via `_calculate_ratio` (exact rational). -/
def ratio (a b : List Char) : ℚ :=
  let msum := matchesSum a b (b2j b) (fun _ => false)
    (a.length + b.length + 1) 0 a.length 0 b.length
  if a.length + b.length ≠ 0 then
    mkRat (2 * (msum : Int)) (a.length + b.length)
  else 1

end DatabaseGuru.Difflib

namespace DatabaseGuru.Difflib

/-!
Analysis measures for the self-comparison (`a = b`) behaviour of
`find_longest_match`: with autojunk, popular elements are purged from `b2j`,
so the DP sees exactly the rows whose element is non-popular.  The invariant
below tracks the running best (always a diagonal block) against the maximal
non-popular run.
-/

/-- Position `p` of `b` holds a non-popular element. -/
def npGood (b : List Char) (p : Nat) : Bool :=
  !(isPopular b (b.getD p (Char.ofNat 0)))

/-- Length of the maximal suffix of positions `[0, i)` of `b` all holding
non-popular elements. -/
def npRun (b : List Char) : Nat → Nat
  | 0 => 0
  | i + 1 => if npGood b i then npRun b i + 1 else 0

/-- The chain facts recorded by a nonzero `j2len` entry of the
self-comparison DP: a `v`-step chain ending at row `i - 1`, column `j`,
whose column window and row window hold only non-popular elements. -/
def chainOK (b : List Char) (i j v : Nat) : Prop :=
  v ≤ j + 1 ∧ v ≤ i ∧
  (∀ t, t < v → npGood b (j - t) = true) ∧
  (∀ t, t < v → npGood b (i - 1 - t) = true)

/-- Invariant of the `find_longest_match` DP state over `(a, a)` after
processing rows `[0, i)`: the running best is a diagonal in-range block
dominating every non-popular run seen so far, the previous row's diagonal
`j2len` entry equals the current non-popular run, and every nonzero `j2len`
entry carries its chain facts. -/
def dpInv (b : List Char) (i : Nat) (st : (Nat → Nat) × Best) : Prop :=
  st.2.besti = st.2.bestj ∧
  st.2.bestj + st.2.bestsize ≤ i ∧
  (∀ r, r ≤ i → npRun b r ≤ st.2.bestsize) ∧
  st.1 (i - 1) = npRun b i ∧
  (∀ j, 0 < st.1 j → chainOK b i j (st.1 j))

end DatabaseGuru.Difflib

namespace DatabaseGuru

/-! ### Leftmost-search matchers for the concrete regular expressions used by
the sources.  Each Python pattern is of one of three shapes; the searchers
below implement `re.search`'s leftmost-match semantics for exactly those
shapes (keyword, then a character-class run, then a captured identifier; the
classes are disjoint from the identifier classes, so the greedy run never
backtracks). -/

/-- Try `f` at every start position, leftmost success wins (`re.search`). -/
def scanOpt (f : List Char → Option String) : List Char → Option String
  | [] => f []
  | c :: cs => (f (c :: cs)).orElse (fun _ => scanOpt f cs)

/-- After the keyword: a (possibly required) run of `cls` characters, then a
captured identifier `identStart identCont*`. -/
def matchRunThenIdent (cls : Char → Bool) (needOne : Bool)
    (identStart identCont : Char → Bool) (rest : List Char) : Option String :=
  let run := rest.takeWhile cls
  let after := rest.drop run.length
  if needOne ∧ run.length = 0 then none
  else
    match after with
    | [] => none
    | c :: cs => if identStart c then some (String.mk (c :: cs.takeWhile identCont)) else none

/-- `re.search(kw + clsRun + capture, s)`; `ci` selects `re.IGNORECASE`. -/
def searchKwRunIdent (kw : String) (ci : Bool) (cls : Char → Bool) (needOne : Bool)
    (identStart identCont : Char → Bool) (s : String) : Option String :=
  scanOpt
    (fun rest =>
      if (if ci then leadsWithCI kw.data rest else leadsWith kw.data rest)
      then matchRunThenIdent cls needOne identStart identCont (rest.drop kw.data.length)
      else none)
    s.data

/-- The `["\s]` class. -/
def quoteOrSpace (c : Char) : Bool := c = '"' ∨ isSpaceCh c

/-- `re.search(r'"([a-zA-Z_][a-zA-Z0-9_]*)".*does not exist', s, re.IGNORECASE)`:
a quoted identifier followed (with no intervening newline, since `.` does not
match `\n`) by `does not exist`. -/
def searchQuotedDoesNotExist (s : String) : Option String :=
  scanOpt
    (fun rest =>
      match rest with
      | '"' :: cs =>
          match cs with
          | [] => none
          | c :: cs' =>
              if isIdentStart c then
                let contRun := cs'.takeWhile isIdentCont
                let after := cs'.drop contRun.length
                match after with
                | '"' :: rest' =>
                    let seg := (rest'.takeWhile (fun ch => ch ≠ '\n')).map Char.toLower
                    if containsSub "does not exist".data seg
                    then some (String.mk (c :: contRun)) else none
                | _ => none
              else none
      | _ => none)
    s.data

end DatabaseGuru

namespace DatabaseGuru.SelfCorrecting

open DatabaseGuru

/-- The context dictionary built by `ErrorDiagnostics.extract_error_context`
(the keys the consumers read: `missing_table` / `missing_column`;
`error_type` and `raw_error` are carried by the caller's locals). -/
structure ErrCtx where
  missingTable : Option String := none
  missingColumn : Option String := none
deriving DecidableEq, Repr

/-- `ErrorDiagnostics.extract_error_context`: pattern
`table["\s]+([a-z_][a-z0-9_]*)` (resp. `column[...]`) searched on the
lower-cased message. -/
def extract_error_context (error_message : String) (error_type : ErrorType) : ErrCtx :=
  let error_lower := lowerStr error_message
  match error_type with
  | .tableNotFound =>
      { missingTable :=
          searchKwRunIdent "table" false quoteOrSpace true isIdentStartLower isIdentContLower error_lower }
  | .columnNotFound =>
      { missingColumn :=
          searchKwRunIdent "column" false quoteOrSpace true isIdentStartLower isIdentContLower error_lower }
  | _ => {}

/-- `ErrorDiagnostics.generate_fix_hints`: `"\n".join(hints)`. -/
def generate_fix_hints (error_type : ErrorType) (context : ErrCtx) : String :=
  let hints : List String :=
    match error_type with
    | .tableNotFound =>
        ["Check the schema for the correct table name.",
         "Table names may be case-sensitive."] ++
        (match context.missingTable with
         | some t => ["Could not find table: " ++ t]
         | none => [])
    | .columnNotFound =>
        ["Check the schema for the correct column name.",
         "Make sure you're referencing the right table."] ++
        (match context.missingColumn with
         | some c => ["Could not find column: " ++ c]
         | none => [])
    | .syntaxError =>
        ["Check for missing commas, parentheses, or keywords.",
         "Verify SQL syntax is correct for the database type."]
    | .typeMismatch =>
        ["Check data types in comparisons and operations.",
         "You may need to cast values to the correct type."]
    | _ => []
  String.intercalate "\n" hints

end DatabaseGuru.SelfCorrecting

namespace DatabaseGuru.SchemaFix

open DatabaseGuru DatabaseGuru.SelfCorrecting

/-- `QuickFix` dataclass of `schema_aware_fixer.py` (confidence as exact ℚ). -/
structure QuickFix where
  success : Bool
  fixed_sql : Option String := none
  correction_type : Option String := none
  original_value : Option String := none
  corrected_value : Option String := none
  confidence : ℚ := 0
  explanation : Option String := none
deriving DecidableEq, Repr

/-- `FuzzyMatcher.similarity`: `SequenceMatcher(None, a.lower(), b.lower()).ratio()`. -/
def similarity (a b : String) : ℚ :=
  Difflib.ratio (lowerStr a).data (lowerStr b).data

/-- `FuzzyMatcher.find_closest`: score all candidates, keep those at or above
`threshold`, stable-sort descending by score (Python's stable `list.sort`
with `reverse=True` keeps original order among ties), return the top
`max_results`. -/
def find_closest (target : String) (candidates : List String)
    (threshold : ℚ) (max_results : Nat) : List (String × ℚ) :=
  if target = "" ∨ candidates = [] then []
  else
    let similarities := candidates.map (fun c => (c, similarity target c))
    let kept := similarities.filter (fun p => decide (threshold ≤ p.2))
    (List.insertionSort (fun x y => y.2 ≤ x.2) kept).take max_results

/-- `FuzzyMatcher.find_best_match`. -/
def find_best_match (target : String) (candidates : List String)
    (threshold : ℚ) : Option (String × ℚ) :=
  (find_closest target candidates threshold 1).head?

/-- Per-table schema snapshot: the fixer reads only the `columns` list. -/
structure TableInfo where
  columns : List String
deriving DecidableEq, Repr

/-- The schema dictionary (`{"tables": {...}}`) in insertion order. -/
def Schema := List (String × TableInfo)

/-- `self.table_names`. -/
def tableNames (schema : Schema) : List String := schema.map (·.1)

/-- `self.columns_by_table[t]` (`dict` lookup). -/
def columnsOf (schema : Schema) (t : String) : Option (List String) :=
  (schema.lookup t).map (·.columns)

/-- First-occurrence deduplication.  `_build_lookup_caches` uses
`list(set(...))`, whose CPython iteration order is unspecified; no proved
statement depends on the order of `all_columns`. -/
def dedupFirst (l : List String) : List String :=
  l.foldl (fun acc x => if x ∈ acc then acc else acc ++ [x]) []

/-- `self.all_columns`. -/
def allColumns (schema : Schema) : List String :=
  dedupFirst (schema.foldl (fun acc t => acc ++ t.2.columns) [])

/-- `SchemaAwareFixer._extract_table_name` (four patterns, `re.IGNORECASE`). -/
def fixer_extract_table_name (error_message : String) : Option String :=
  (searchKwRunIdent "table" true quoteOrSpace true isIdentStart isIdentCont error_message).orElse fun _ =>
  (searchKwRunIdent "relation" true quoteOrSpace true isIdentStart isIdentCont error_message).orElse fun _ =>
  (searchKwRunIdent "no such table:" true isSpaceCh false isIdentStart isIdentCont error_message).orElse fun _ =>
  searchQuotedDoesNotExist error_message

/-- `SchemaAwareFixer._extract_column_name`. -/
def fixer_extract_column_name (error_message : String) : Option String :=
  (searchKwRunIdent "column" true quoteOrSpace true isIdentStart isIdentCont error_message).orElse fun _ =>
  (searchKwRunIdent "field" true quoteOrSpace true isIdentStart isIdentCont error_message).orElse fun _ =>
  (searchKwRunIdent "no such column:" true isSpaceCh false isIdentStart isIdentCont error_message).orElse fun _ =>
  searchQuotedDoesNotExist error_message

/-- `SchemaAwareFixer._identify_table_from_sql`: first `FROM <ident>` match,
falling back to `JOIN <ident>`, kept only if the table is in the schema. -/
def identify_table_from_sql (schema : Schema) (sql : String) : Option String :=
  let fromJoin := fun (kw : String) =>
    match searchKwRunIdent kw true isSpaceCh true isIdentStart isIdentCont sql with
    | some t => if t ∈ tableNames schema then some t else none
    | none => none
  (fromJoin "from").orElse fun _ => fromJoin "join"

/-- Word-boundary, case-insensitive, non-overlapping replacement:
`re.sub(r'\b' + re.escape(old) + r'\b', new, s, flags=re.IGNORECASE)`.
`old` is always a regex-captured identifier (non-empty, word characters
only), for which `\b` means: previous char (if any) is not a word char, and
the char following the occurrence (if any) is not a word char.  Scanning
resumes after each replaced occurrence, boundaries being judged on the
original string. -/
def replaceWBAux (old new : List Char) : Nat → Option Char → List Char → List Char
  | 0, _, rest => rest
  | _ + 1, _, [] => []
  | fuel + 1, prev, c :: cs =>
      let boundaryBefore := match prev with | none => true | some pc => !isWordCh pc
      let here := c :: cs
      let afterOcc := here.drop old.length
      let boundaryAfter := match afterOcc.head? with | none => true | some nc => !isWordCh nc
      if boundaryBefore && leadsWithCI old here && boundaryAfter then
        new ++ replaceWBAux old new fuel ((here.take old.length).getLast?) afterOcc
      else
        c :: replaceWBAux old new fuel (some c) cs

/-- `SchemaAwareFixer._replace_table_name` / `_replace_column_name`. -/
def replaceWordCI (s old new : String) : String :=
  if old.data.isEmpty then s
  else String.mk (replaceWBAux old.data new.data s.data.length none s.data)

/-- Greedy match of `re.search(r'^(.*[^;])\s*$', sql)`: the longest prefix
`take k` (`k ≥ 1`) whose last char is not `;`, whose other chars contain no
newline (`.` does not match `\n`; the final `[^;]` may), and whose remainder
is all whitespace.  Returns group 1. -/
def semiMatch (sql : List Char) : Option (List Char) :=
  ((List.range (sql.length + 1)).reverse).findSome?
    (fun k =>
      if k = 0 then none
      else if (sql.drop k).all isSpaceCh ∧ sql.getD (k - 1) ' ' ≠ ';' ∧
              (sql.take (k - 1)).all (fun ch => ch ≠ '\n')
      then some (sql.take k) else none)

/-- Does `sql` contain two consecutive whitespace chars (`re.search(r'\s{2,}')`)? -/
def hasDoubleSpace : List Char → Bool
  | a :: b :: rest => (isSpaceCh a && isSpaceCh b) || hasDoubleSpace (b :: rest)
  | _ => false

/-- `re.sub(r'\s{2,}', ' ', sql)`: each maximal whitespace run of length ≥ 2
becomes a single space. -/
def collapseSpacesAux : Nat → List Char → List Char
  | 0, rest => rest
  | _ + 1, [] => []
  | fuel + 1, c :: cs =>
      if isSpaceCh c && (match cs.head? with | some d => isSpaceCh d | none => false) then
        ' ' :: collapseSpacesAux fuel (cs.dropWhile isSpaceCh)
      else
        c :: collapseSpacesAux fuel cs

def collapseSpaces (l : List Char) : List Char := collapseSpacesAux l.length l

/-- Does `sql` contain a comma directly followed by a non-space (`r',(\S)'`)? -/
def hasTightComma : List Char → Bool
  | ',' :: c :: rest => !isSpaceCh c || hasTightComma (c :: rest)
  | _ :: rest => hasTightComma rest
  | [] => false

/-- `re.sub(r',(\S)', r', \1', sql)` (non-overlapping, the `\S` char is
consumed with the match). -/
def spaceAfterComma : List Char → List Char
  | ',' :: c :: rest =>
      if !isSpaceCh c then ',' :: ' ' :: c :: spaceAfterComma rest
      else ',' :: spaceAfterComma (c :: rest)
  | c :: rest => c :: spaceAfterComma rest
  | [] => []

/-- `SchemaAwareFixer._fix_syntax_error`: the three mechanical rewrites, in
source order; a rewrite is adopted only if it changes the SQL. -/
def fix_syntax_error (sql : String) : QuickFix :=
  let try1 : Option QuickFix :=
    match semiMatch sql.data with
    | some g =>
        let fixed := String.mk (g ++ [';'])
        if fixed ≠ sql then
          some ⟨true, some fixed, some "syntax", none, none, mkRat 8 10, some "Added missing semicolon"⟩
        else none
    | none => none
  let try2 : Option QuickFix :=
    if hasDoubleSpace sql.data then
      let fixed := String.mk (collapseSpaces sql.data)
      if fixed ≠ sql then
        some ⟨true, some fixed, some "syntax", none, none, mkRat 8 10, some "Removed extra spaces"⟩
      else none
    else none
  let try3 : Option QuickFix :=
    if hasTightComma sql.data then
      let fixed := String.mk (spaceAfterComma sql.data)
      if fixed ≠ sql then
        some ⟨true, some fixed, some "syntax", none, none, mkRat 8 10, some "Added space after comma"⟩
      else none
    else none
  ((try1.orElse fun _ => try2).orElse fun _ => try3).getD ⟨false, none, none, none, none, 0, none⟩

/-- `SchemaAwareFixer._fix_table_not_found`.  A `none` SQL models Python's
`sql=None`: the `re.sub` call in `_replace_table_name` then raises
`TypeError`, which `quick_fix`'s `except` turns into `QuickFix(success=False)`
(all other fields default). -/
def fix_table_not_found (schema : Schema) (sql : Option String)
    (error_message : String) (context : ErrCtx) : QuickFix :=
  let extracted := fixer_extract_table_name error_message
  let missing := match context.missingTable with
    | some t => some t
    | none => extracted
  match missing with
  | none => ⟨false, none, none, none, none, 0, none⟩
  | some missing_table =>
      match find_best_match missing_table (tableNames schema) (mkRat 6 10) with
      | none => ⟨false, none, none, none, none, 0, none⟩
      | some (correct_table, confidence) =>
          if confidence < mkRat 7 10 then ⟨false, none, none, none, none, confidence, none⟩
          else
            match sql with
            | none => ⟨false, none, none, none, none, 0, none⟩
            | some s =>
                ⟨true, some (replaceWordCI s missing_table correct_table), some "table_name",
                 some missing_table, some correct_table, confidence,
                 some ("Corrected table name: " ++ missing_table ++ " → " ++ correct_table)⟩

/-- `SchemaAwareFixer._fix_column_not_found`.  A `none` SQL raises `TypeError`
inside `_identify_table_from_sql` (`re.search` on `None`), caught by
`quick_fix`'s `except`. -/
def fix_column_not_found (schema : Schema) (sql : Option String)
    (error_message : String) (context : ErrCtx) : QuickFix :=
  let extracted := fixer_extract_column_name error_message
  let missing := match context.missingColumn with
    | some c => some c
    | none => extracted
  match missing with
  | none => ⟨false, none, none, none, none, 0, none⟩
  | some missing_column =>
      match sql with
      | none => ⟨false, none, none, none, none, 0, none⟩
      | some s =>
          let table_name := identify_table_from_sql schema s
          let candidates :=
            match table_name with
            | some t => (columnsOf schema t).getD (allColumns schema)
            | none => allColumns schema
          match find_best_match missing_column candidates (mkRat 6 10) with
          | none => ⟨false, none, none, none, none, 0, none⟩
          | some (correct_column, confidence) =>
              if confidence < mkRat 7 10 then ⟨false, none, none, none, none, confidence, none⟩
              else
                ⟨true, some (replaceWordCI s missing_column correct_column), some "column_name",
                 some missing_column, some correct_column, confidence,
                 some ("Corrected column name: " ++ missing_column ++ " → " ++ correct_column)⟩

/-- `SchemaAwareFixer.quick_fix`: route by error type; error types the fixer
does not handle yield an immediate failure.  (The internal `try/except`
returning `QuickFix(success=False)` is reflected in the `none`-SQL branches
above; no other exception source exists in the embedded paths.) -/
def quick_fix (schema : Schema) (sql : Option String) (error_type : ErrorType)
    (error_message : String) (context : ErrCtx) : QuickFix :=
  match error_type with
  | .tableNotFound => fix_table_not_found schema sql error_message context
  | .columnNotFound => fix_column_not_found schema sql error_message context
  | .syntaxError =>
      match sql with
      | some s => fix_syntax_error s
      | none => ⟨false, none, none, none, none, 0, none⟩
  | _ => ⟨false, none, none, none, none, 0, none⟩

end DatabaseGuru.SchemaFix

namespace DatabaseGuru.Learner

open DatabaseGuru DatabaseGuru.SelfCorrecting

/-- `LearnedCorrection` persisted record (`database/models.py` columns read by
`correction_learner.py`; timestamps omitted — nothing reads them). -/
structure LearnedCorrection where
  id : Nat
  error_type : String
  error_pattern : String
  database_type : String
  original_sql : String
  original_error : String
  corrected_sql : String
  correction_description : Option String
  table_pattern : Option String
  column_pattern : Option String
  times_applied : Nat
  success_rate : ℚ
  confidence_score : ℚ
deriving DecidableEq, Repr

/-- The learner's backing table: rows in insertion (primary-key) order plus
the autoincrement counter.  `query(...).first()` without `order_by` is
modelled as first match in insertion order. -/
structure Store where
  recs : List LearnedCorrection
  nextId : Nat
deriving DecidableEq, Repr

def emptyStore : Store := ⟨[], 1⟩

/-- ASCII apostrophe. -/
def squote : Char := Char.ofNat 39

/-- `re.sub(q + '[^q]*' + q, repl, s)` for a quote char `q`: each pair of
quotes (with the shortest-possible quote-free interior, which is what the
greedy `[^q]*` yields) is replaced by `repl`; an unpaired opening quote
matches nothing, and then no later match can exist either. -/
def subQuoted (q : Char) (repl : List Char) : Nat → List Char → List Char
  | 0, rest => rest
  | _ + 1, [] => []
  | fuel + 1, c :: cs =>
      if c = q then
        let inside := cs.takeWhile (fun ch => ch ≠ q)
        let after := cs.drop inside.length
        match after with
        | _ :: rest' => repl ++ subQuoted q repl fuel rest'
        | [] => c :: cs
      else c :: subQuoted q repl fuel cs

/-- `re.sub(r'\b\d+\b', '<num>', s)`: maximal digit runs with word boundaries
on both sides. -/
def subNumsAux : Nat → Option Char → List Char → List Char
  | 0, _, rest => rest
  | _ + 1, _, [] => []
  | fuel + 1, prev, c :: cs =>
      let bb := match prev with | none => true | some pc => !isWordCh pc
      if bb && isDigitCh c then
        let run := (c :: cs).takeWhile isDigitCh
        let after := (c :: cs).drop run.length
        let ba := match after.head? with | none => true | some nc => !isWordCh nc
        if ba then "<num>".data ++ subNumsAux fuel run.getLast? after
        else c :: subNumsAux fuel (some c) cs
      else c :: subNumsAux fuel (some c) cs

/-- `CorrectionLearner._normalize_error`: lower-case, replace double-quoted
then single-quoted spans by a `<name>` placeholder, then standalone numbers
by `<num>`. -/
def normalize_error (error_message : String) : String :=
  let el := (lowerStr error_message).data
  let s1 := subQuoted '"' ('"' :: "<name>".data ++ ['"']) el.length el
  let s2 := subQuoted squote (squote :: "<name>".data ++ [squote]) s1.length s1
  String.mk (subNumsAux s2.length none s2)

/-- `CorrectionLearner._extract_table_name` (three lower-cased patterns). -/
def learner_extract_table_name (error_message : String) : Option String :=
  let el := lowerStr error_message
  (searchKwRunIdent "table" false quoteOrSpace true isIdentStartLower isIdentContLower el).orElse fun _ =>
  (searchKwRunIdent "relation" false quoteOrSpace true isIdentStartLower isIdentContLower el).orElse fun _ =>
  searchKwRunIdent "no such table:" false isSpaceCh false isIdentStartLower isIdentContLower el

/-- `CorrectionLearner._extract_column_name`. -/
def learner_extract_column_name (error_message : String) : Option String :=
  let el := lowerStr error_message
  (searchKwRunIdent "column" false quoteOrSpace true isIdentStartLower isIdentContLower el).orElse fun _ =>
  (searchKwRunIdent "field" false quoteOrSpace true isIdentStartLower isIdentContLower el).orElse fun _ =>
  searchKwRunIdent "no such column:" false isSpaceCh false isIdentStartLower isIdentContLower el

/-- First-occurrence deduplication (see `SchemaFix.dedupFirst`): models the
`set(...)` of `_analyze_sql_diff`, whose CPython iteration order is
unspecified; no proved statement depends on this order. -/
def wordSet (s : String) : List String :=
  SchemaFix.dedupFirst (((lowerStr s).split isSpaceCh).filter (fun w => w ≠ ""))

/-- `CorrectionLearner._analyze_sql_diff`. -/
def analyze_sql_diff (original corrected : String) : String :=
  let ow := wordSet original
  let cw := wordSet corrected
  let added := cw.filter (fun w => ¬ w ∈ ow)
  let removed := ow.filter (fun w => ¬ w ∈ cw)
  if added ≠ [] ∧ removed ≠ [] then
    "Changed " ++ String.intercalate ", " (removed.take 3) ++ " to " ++
      String.intercalate ", " (added.take 3)
  else if added ≠ [] then "Added " ++ String.intercalate ", " (added.take 3)
  else if removed ≠ [] then "Removed " ++ String.intercalate ", " (removed.take 3)
  else "Minor correction"

/-- The pattern dictionary built by `CorrectionLearner._extract_patterns`. -/
structure Patterns where
  error_pattern : String
  description : Option String
  table_pattern : Option String
  column_pattern : Option String
deriving DecidableEq, Repr

def extract_patterns (error_type : ErrorType) (original_sql original_error corrected_sql : String) :
    Patterns :=
  let base : Patterns := ⟨normalize_error original_error, none, none, none⟩
  let p1 :=
    if error_type = .tableNotFound then
      match learner_extract_table_name original_error with
      | some t =>
          { base with
            table_pattern := some t,
            description := some ("Fix for missing table: " ++ t) }
      | none => base
    else base
  let p2 :=
    if error_type = .columnNotFound then
      match learner_extract_column_name original_error with
      | some c =>
          { p1 with
            column_pattern := some c,
            description := some ("Fix for missing column: " ++ c) }
      | none => p1
    else p1
  if p2.description = none then
    { p2 with description := some (analyze_sql_diff original_sql corrected_sql) }
  else p2

/-- Python truthiness of an optional string. -/
def truthy : Option String → Bool
  | some s => s ≠ ""
  | none => false

/-- `CorrectionLearner._find_similar_correction`. -/
def find_similar (store : Store) (error_type : ErrorType) (error_pattern : String)
    (database_type : String) (table_pattern column_pattern : Option String) :
    Option LearnedCorrection :=
  store.recs.find? (fun r =>
    r.error_type = error_type.value && r.database_type = database_type &&
    r.error_pattern = error_pattern &&
    (!truthy table_pattern || r.table_pattern = table_pattern) &&
    (!truthy column_pattern || r.column_pattern = column_pattern))

/-- `CorrectionLearner.learn_from_correction` as a store transition returning
the correction id (or `none` when learning is disabled or the correction was
unsuccessful). -/
def learn_from_correction (store : Store) (enable_learning : Bool)
    (error_type : ErrorType) (original_sql original_error corrected_sql : String)
    (database_type : String) (was_successful : Bool) : Option Nat × Store :=
  if !enable_learning || !was_successful then (none, store)
  else
    let patterns := extract_patterns error_type original_sql original_error corrected_sql
    match find_similar store error_type patterns.error_pattern database_type
        patterns.table_pattern patterns.column_pattern with
    | some existing =>
        let updated := { existing with
          times_applied := existing.times_applied + 1,
          confidence_score := qmin 1 (qadd existing.confidence_score (mkRat 1 10)) }
        (some existing.id,
         { store with recs := store.recs.map (fun r => if r.id = existing.id then updated else r) })
    | none =>
        let c : LearnedCorrection :=
          { id := store.nextId, error_type := error_type.value,
            error_pattern := patterns.error_pattern, database_type := database_type,
            original_sql := original_sql, original_error := original_error,
            corrected_sql := corrected_sql, correction_description := patterns.description,
            table_pattern := patterns.table_pattern, column_pattern := patterns.column_pattern,
            times_applied := 1, success_rate := 1, confidence_score := mkRat 7 10 }
        (some store.nextId, ⟨store.recs ++ [c], store.nextId + 1⟩)

/-- `CorrectionLearner.find_applicable_corrections`: exact
(error kind, database kind) match, confidence ≥ 0.5, optional broadening
table/column pattern filters, stable order by (confidence desc,
times_applied desc), capped at `limit`. -/
def find_applicable_corrections (store : Store) (enable_learning : Bool)
    (error_type : ErrorType) (error_message : String) (database_type : String)
    (limit : Nat) : List LearnedCorrection :=
  if !enable_learning then []
  else
    let table_match := learner_extract_table_name error_message
    let column_match := learner_extract_column_name error_message
    let base := store.recs.filter (fun r =>
      r.error_type = error_type.value && r.database_type = database_type &&
      decide (mkRat 1 2 ≤ r.confidence_score))
    let f1 := if truthy table_match then
        base.filter (fun r => r.table_pattern = table_match || r.table_pattern = none)
      else base
    let f2 := if truthy column_match then
        f1.filter (fun r => r.column_pattern = column_match || r.column_pattern = none)
      else f1
    (List.insertionSort
      (fun x y => y.confidence_score < x.confidence_score ∨
        (x.confidence_score = y.confidence_score ∧ y.times_applied ≤ x.times_applied)) f2).take limit

/-- `CorrectionLearner.apply_learned_correction` (`record_application`). -/
def apply_learned_correction (store : Store) (correction_id : Nat)
    (was_successful : Bool) : Store :=
  match store.recs.find? (fun r => r.id = correction_id) with
  | none => store
  | some c =>
      let c1 :=
        if was_successful then
          { c with times_applied := c.times_applied + 1,
                   confidence_score := min 1 (c.confidence_score + 1/20) }
        else { c with confidence_score := max 0 (c.confidence_score - 1/10) }
      let total := c1.times_applied
      let c2 :=
        if 0 < total then
          { c1 with success_rate :=
              (c1.success_rate * ((total : ℚ) - 1) + (if was_successful then 1 else 0)) / (total : ℚ) }
        else c1
      { store with recs := store.recs.map (fun r => if r.id = correction_id then c2 else r) }

end DatabaseGuru.Learner

namespace DatabaseGuru.Verify

open DatabaseGuru

/-- Python's `str.upper()` (char-wise; ASCII). -/
def upperStr (s : String) : String := ⟨s.data.map Char.toUpper⟩

/-- `VerificationIssue` enum of `result_verification_agent.py`. -/
inductive VerificationIssue where
  | emptyResult
  | allNulls
  | extremeValue
  | unexpectedCount
  | singleRowAggregate
  | negativeCount
  | typeInconsistency
  | noIssue
deriving DecidableEq, Repr

/-- `VerificationResult` dataclass. -/
structure VerificationResult where
  is_suspicious : Bool
  confidence : ℚ
  issue_type : VerificationIssue
  description : String
  suggested_fix : Option String := none
  diagnostic_queries : Option (List String) := none
deriving DecidableEq, Repr

/-- A scalar cell value of an execution-result row.  Python's
`isinstance(val, (int, float))` also accepts `bool` (a subclass of `int`);
`asNum` reflects that. -/
inductive Value where
  | vNull
  | vInt (n : ℤ)
  | vFloat (q : ℚ)
  | vBool (b : Bool)
  | vStr (s : String)
deriving DecidableEq, Repr

def Value.asNum : Value → Option ℚ
  | .vInt n => some (n : ℚ)
  | .vFloat q => some q
  | .vBool b => some (if b then 1 else 0)
  | _ => none

/-- Python `val == 0` (numeric cross-type equality; `False == 0`). -/
def Value.pyEqZero (v : Value) : Bool :=
  match v.asNum with
  | some q => q = 0
  | none => false

/-- A result row: dict in insertion order. -/
abbrev Row := List (String × Value)

/-- The execution-result dictionary as read by `verify_results`
(`result.get("success", False)`, `.get("data", [])`, `.get("columns", [])`,
`.get("row_count", 0)`). -/
structure VExecResult where
  success : Bool
  data : List Row
  columns : List String
  row_count : Int
deriving Repr

/-- `ResultVerificationAgent._has_all_nulls`. -/
def has_all_nulls (data : List Row) : Bool :=
  if data.isEmpty then false
  else data.all (fun row => row.all (fun kv => kv.2 = Value.vNull))

/-- `ResultVerificationAgent._extract_table_names`: `re.findall` of
`(?:FROM|JOIN)\s+([a-zA-Z_][a-zA-Z0-9_]*)` (case-insensitive,
non-overlapping), then `list(set(...))` — CPython set order is unspecified;
first-occurrence order is used and no proved statement depends on it. -/
def tryFromJoin (kw : String) (here : List Char) : Option (String × List Char) :=
  if leadsWithCI kw.data here then
    let rest := here.drop kw.data.length
    let run := rest.takeWhile isSpaceCh
    if run.length = 0 then none
    else
      match rest.drop run.length with
      | [] => none
      | d :: ds =>
          if isIdentStart d then
            let contRun := ds.takeWhile isIdentCont
            some (String.mk (d :: contRun), ds.drop contRun.length)
          else none
  else none

def findTablesAux : Nat → List Char → List String
  | 0, _ => []
  | _ + 1, [] => []
  | fuel + 1, c :: cs =>
      match tryFromJoin "from" (c :: cs) with
      | some (t, rest) => t :: findTablesAux fuel rest
      | none =>
          match tryFromJoin "join" (c :: cs) with
          | some (t, rest) => t :: findTablesAux fuel rest
          | none => findTablesAux fuel cs

def extract_table_names (sql : String) : List String :=
  SchemaFix.dedupFirst (findTablesAux sql.data.length sql.data)

/-- ASCII apostrophe as a one-character string (used in the literal hint
texts below). -/
def apos : String := String.mk [Learner.squote]

/-- `ResultVerificationAgent._check_empty_result` (pure part: the returned
`VerificationResult`). -/
def check_empty_result (sql : String) : VerificationResult :=
  let tables := extract_table_names sql
  let diagnostic_queries := tables.foldr
    (fun t acc => ("SELECT COUNT(*) as count FROM " ++ t) ::
                  ("SELECT * FROM " ++ t ++ " LIMIT 5") :: acc) []
  { is_suspicious := true, confidence := mkRat 7 10, issue_type := .emptyResult,
    description := "Query returned 0 rows. This might be correct, but let" ++ apos ++
      "s verify the table(s) " ++ String.intercalate ", " tables ++ " actually contain data.",
    suggested_fix := some "Verify table has data, check WHERE clause filters, or adjust query logic",
    diagnostic_queries := some diagnostic_queries }

/-- `ResultVerificationAgent._check_all_nulls`. -/
def check_all_nulls : VerificationResult :=
  { is_suspicious := true, confidence := mkRat 8 10, issue_type := .allNulls,
    description := "All values in the result are NULL. This usually indicates wrong column names or JOINs.",
    suggested_fix := some "Check column names in SELECT clause, verify JOIN conditions, or check for missing data",
    diagnostic_queries := none }

/-- Python number rendering in f-strings is approximated by `toString` of the
exact value; no proved statement inspects a description. -/
def showQ (q : ℚ) : String := toString q

/-- `ResultVerificationAgent._check_extreme_values`. -/
def check_extreme_values (data : List Row) (threshold : ℚ) : VerificationResult :=
  let extremes := data.foldl
    (fun acc row => acc ++ row.filterMap (fun kv =>
      match kv.2.asNum with
      | some q => if threshold < |q| then some (kv.1, q) else none
      | none => none)) []
  match extremes.head? with
  | some (col, q) =>
      { is_suspicious := true, confidence := mkRat 6 10, issue_type := .extremeValue,
        description := "Found extreme value: " ++ showQ q ++ " in column " ++ apos ++ col ++ apos ++
          ". This might indicate wrong aggregation or calculation.",
        suggested_fix := some "Check aggregation functions (SUM, COUNT), verify JOIN multipliers, or check data types",
        diagnostic_queries := none }
  | none =>
      { is_suspicious := false, confidence := 0, issue_type := .noIssue,
        description := "No extreme values detected" }

def expectsDataKeywords : List String := ["how many", "count", "number of", "total"]

/-- `ResultVerificationAgent._check_count_queries`. -/
def check_count_queries (question sql : String) (data : List Row) : VerificationResult :=
  let is_count_query := strContains (upperStr sql) "COUNT("
  if ¬ is_count_query then
    { is_suspicious := false, confidence := 0, issue_type := .noIssue,
      description := "Not a count query" }
  else
    let hit :=
      match data.head? with
      | some first_row =>
          first_row.any (fun kv =>
            strContains (lowerStr kv.1) "count" && kv.2.pyEqZero &&
            expectsDataKeywords.any (fun kw => strContains (lowerStr question) kw))
      | none => false
    if hit then
      { is_suspicious := true, confidence := mkRat 1 2, issue_type := .unexpectedCount,
        description := "COUNT returned 0 for question " ++ apos ++ question ++ apos ++
          ". Verify this is expected.",
        suggested_fix := some "Check table has data, verify WHERE clause filters",
        diagnostic_queries := none }
    else
      { is_suspicious := false, confidence := 0, issue_type := .noIssue,
        description := "Count query looks valid" }

/-- The cell test of `_check_negative_values`: a column whose name contains
`count` holding a negative numeric value (the hit carries the pair). -/
def negItem (kv : String × Value) : Option (String × ℚ) :=
  match kv.2.asNum with
  | some q =>
      if strContains (lowerStr kv.1) "count" ∧ q < 0 then some (kv.1, q) else none
  | none => none

/-- The same cell test as a plain boolean. -/
def negCell (kv : String × Value) : Bool :=
  strContains (lowerStr kv.1) "count" && decide (kv.2.asNum.getD 0 < 0)

/-- `ResultVerificationAgent._check_negative_values`: first row/column pair
whose column name contains `count` and whose numeric value is negative. -/
def check_negative_values (data : List Row) : VerificationResult :=
  match (data.foldl (fun acc row => acc ++ row.filterMap negItem) []).head? with
  | some (_, q) =>
      { is_suspicious := true, confidence := 1, issue_type := .negativeCount,
        description := "Negative count detected: " ++ showQ q ++
          ". This indicates a serious error in the query.",
        suggested_fix := some "Check query logic, aggregation functions, or data types",
        diagnostic_queries := none }
  | none =>
      { is_suspicious := false, confidence := 0, issue_type := .noIssue,
        description := "No negative counts detected" }

/-- `ResultVerificationAgent.verify_results`: the five checks in source
order, first positive wins. -/
def verify_results (question sql : String) (result : VExecResult)
    (extreme_value_threshold : ℚ) : VerificationResult :=
  if ¬ result.success then
    { is_suspicious := false, confidence := 0, issue_type := .noIssue,
      description := "Query failed, cannot verify results" }
  else
    let data := result.data
    if result.row_count = 0 then check_empty_result sql
    else if has_all_nulls data then check_all_nulls
    else
      let extreme_check := check_extreme_values data extreme_value_threshold
      if extreme_check.is_suspicious then extreme_check
      else
        let count_check := check_count_queries question sql data
        if count_check.is_suspicious then count_check
        else
          let negative_check := check_negative_values data
          if negative_check.is_suspicious then negative_check
          else
            { is_suspicious := false, confidence := 0, issue_type := .noIssue,
              description := "Results look valid" }

end DatabaseGuru.Verify

namespace DatabaseGuru.Agent

open DatabaseGuru DatabaseGuru.SelfCorrecting

/-- Generation result dictionary: the orchestrator reads `gen_result["sql"]`
(`is_valid`/`warnings` feed only a log line and carry no control flow). -/
structure GenResult where
  sql : String
deriving DecidableEq, Repr

/-- `fix_sql_error` result dictionary: the orchestrator reads `["sql"]`. -/
structure FixResult where
  sql : String
deriving DecidableEq, Repr

/-- Execution result dictionary as read by the retry loops.  The executor
contract (`core/executor.py`) always provides a string `error` message on
failure; `error` is never read on success. -/
structure ExecResult where
  success : Bool
  error : String
  execution_time_ms : Option ℚ
  row_count : Option Int
deriving DecidableEq, Repr

/-- `CorrectionAttempt` dataclass (the success-path record stores the local
`sql`, which the dataclass does not coerce, hence `Option String`). -/
structure CorrectionAttempt where
  attempt_number : Nat
  sql : Option String
  error : Option String
  error_type : ErrorType
  success : Bool
  execution_time_ms : Option ℚ
  row_count : Option Int
deriving DecidableEq, Repr

/-- Call counters for the collaborators (instrumentation only: they record
how often each call site fired and influence nothing). -/
structure Calls where
  generate : Nat := 0
  fixError : Nat := 0
  execute : Nat := 0
  quickFix : Nat := 0
  findApplicable : Nat := 0
  learn : Nat := 0
deriving DecidableEq, Repr

/-- The orchestrator's collaborators: the external SQL-generation service
(`generate_sql` / `fix_sql_error`), the external execution service
(`execute_query`), and the per-run schema snapshot for the schema-aware
fixer (`none` when `enable_schema_fixes` is off or schema parsing failed).
Oracles may depend on the attempt number; a `.error e` models a raised
exception with `str(e) = e`. -/
structure Env where
  generate : Except String GenResult
  fixError : Nat → Option String → String → Except String FixResult
  execute : Nat → Option String → Except String ExecResult
  schemaFixer : Option SchemaFix.Schema

/-- Outcome of one iteration's `try` body up to and including the execute
call: either an execution result or a caught exception, together with the
surviving `gen_result` and `sql` locals. -/
inductive BodyOut where
  | ok (genRes : Option GenResult) (sql : Option String) (exec : ExecResult)
  | exn (genRes : Option GenResult) (sql : Option String) (e : String)
deriving Repr

/-- `str(e)` of the `NameError` raised by the validation-warning line
(`logger.warning(f"... {gen_result.get('warnings')}")`), which runs on every
retry round and dereferences `gen_result` even when attempt 1's generation
call raised before binding it. -/
def nameErrText : String :=
  "name " ++ Verify.apos ++ "gen_result" ++ Verify.apos ++ " is not defined"

/-- The tail of an iteration: the validation-warning line (a `NameError`
when `gen_result` is unbound on a retry round), then the execute call. -/
def execPhase (env : Env) (n : Nat) (genRes : Option GenResult)
    (sql : Option String) (c : Calls) : BodyOut × Calls :=
  if n ≠ 1 ∧ genRes = none then
    (.exn genRes sql nameErrText, c)
  else
    match env.execute n sql with
    | .ok r => (.ok genRes sql r, { c with execute := c.execute + 1 })
    | .error e => (.exn genRes sql e, { c with execute := c.execute + 1 })

/-- Python `f"{x}"` of an optional string (`None` renders as `"None"`). -/
def optStr : Option String → String
  | some s => s
  | none => "None"

/-- The schema-aware quick-fix step of a retry round: when a fixer is
configured, call `quick_fix` (counted) and adopt its `fixed_sql` exactly
when it succeeded with confidence ≥ 0.7. -/
def quickFixStep (env : Env) (sql0 : Option String) (error_type : ErrorType)
    (le : String) (error_context : ErrCtx) (c : Calls) : Option (Option String) × Calls :=
  match env.schemaFixer with
  | some schema =>
      let qf := SchemaFix.quick_fix schema sql0 error_type le error_context
      let c' := { c with quickFix := c.quickFix + 1 }
      if qf.success && decide (mkRat 7 10 ≤ qf.confidence) then (some qf.fixed_sql, c')
      else (none, c')
  | none => (none, c)

/-- The learned-correction lookup of a retry round: when a learner is
configured, query it (counted) and append the first hit's description to the
hint text. -/
def learnedHintsStep (learnerStore : Option Learner.Store) (error_type : ErrorType)
    (le dbType hints : String) (c : Calls) : String × Calls :=
  match learnerStore with
  | some store =>
      let found := Learner.find_applicable_corrections store true error_type le dbType 1
      let c2 := { c with findApplicable := c.findApplicable + 1 }
      match found.head? with
      | some lc =>
          (hints ++ "\n\nLearned correction available: " ++ optStr lc.correction_description, c2)
      | none => (hints, c2)
  | none => (hints, c)

/-- One iteration of `generate_and_execute_with_retry`'s `try` body:
generation on attempt 1; otherwise diagnosis, the schema-aware quick fix
(adopted when successful with confidence ≥ 0.7), else learned-correction
hints plus the LLM `fix_sql_error` call; then execution. -/
def attemptBody (env : Env) (learnerStore : Option Learner.Store) (dbType : String)
    (n : Nat) (genRes : Option GenResult) (sql0 : Option String)
    (lastError : Option String) (c : Calls) : BodyOut × Calls :=
  if n = 1 then
    match env.generate with
    | .error e => (.exn none sql0 e, { c with generate := c.generate + 1 })
    | .ok g => execPhase env n (some g) (some g.sql) { c with generate := c.generate + 1 }
  else
    let le := lastError.getD ""
    let error_type := categorize_error le
    let error_context := extract_error_context le error_type
    let hints := generate_fix_hints error_type error_context
    match quickFixStep env sql0 error_type le error_context c with
    | (some fixedSql, c1) => execPhase env n genRes fixedSql c1
    | (none, c1) =>
        let learnedStep := learnedHintsStep learnerStore error_type le dbType hints c1
        let enhanced_error := le ++ "\n\nHints:\n" ++ learnedStep.1
        match env.fixError n sql0 enhanced_error with
        | .error e =>
            (.exn genRes sql0 e, { learnedStep.2 with fixError := learnedStep.2.fixError + 1 })
        | .ok f =>
            execPhase env n genRes (some f.sql)
              { learnedStep.2 with fixError := learnedStep.2.fixError + 1 }

/-- The result dictionary of `generate_and_execute_with_retry` (the constant
metadata fields `question`, `model_used` and `message` are omitted). -/
structure RunOut where
  success : Bool
  sql : Option String
  result : Option ExecResult
  error : Option String
  attempts : List CorrectionAttempt
  self_corrected : Bool
  total_attempts : Nat
deriving Repr

/-- The all-retries-exhausted return (`"sql": sql or ""`,
`"total_attempts": len(attempts)`, `"self_corrected": len(attempts) > 1`). -/
def exhaustedResult (sql : Option String) (lastError : Option String)
    (attempts : List CorrectionAttempt) : RunOut :=
  { success := false, sql := some (sql.getD ""), result := none, error := lastError,
    attempts := attempts, self_corrected := 1 < attempts.length,
    total_attempts := attempts.length }

/-- The retry loop (`for attempt_num in range(1, max_retries + 1)`), fuel
being the number of iterations still available (`max_retries` at entry, so
the fuel-0 exit coincides with the natural end of the `range`). -/
def loop (env : Env) (dbType : String) (maxR : Nat) :
    Nat → Nat → Option GenResult → Option String → Option String →
    List CorrectionAttempt → Option Learner.Store → Calls →
    RunOut × Calls × Option Learner.Store
  | 0, _, _, sql0, lastError, attempts, store, c =>
      (exhaustedResult sql0 lastError attempts, c, store)
  | fuel + 1, n, genRes, sql0, lastError, attempts, store, c =>
      match attemptBody env store dbType n genRes sql0 lastError c with
      | (.ok genRes' sql' exec, c1) =>
          let attempt : CorrectionAttempt :=
            { attempt_number := n, sql := sql',
              error := if exec.success then none else some exec.error,
              error_type := if exec.success then .unknown else categorize_error exec.error,
              success := exec.success,
              execution_time_ms := exec.execution_time_ms, row_count := exec.row_count }
          let attempts' := attempts ++ [attempt]
          if exec.success then
            let learnStep : Option Learner.Store × Calls :=
              if 1 < n then
                match store with
                | some s =>
                    if 0 < attempts'.length then
                      match attempts'.head? with
                      | some first_attempt =>
                          if first_attempt.success = false ∧ Learner.truthy first_attempt.error then
                            let r := Learner.learn_from_correction s true first_attempt.error_type
                              (first_attempt.sql.getD "") (first_attempt.error.getD "")
                              (sql'.getD "") dbType true
                            (some r.2, { c1 with learn := c1.learn + 1 })
                          else (some s, c1)
                      | none => (some s, c1)
                    else (some s, c1)
                | none => (none, c1)
              else (store, c1)
            ({ success := true, sql := sql', result := some exec, error := none,
               attempts := attempts', self_corrected := 1 < n, total_attempts := n },
             learnStep.2, learnStep.1)
          else
            let lastError' := some exec.error
            if maxR ≤ n then (exhaustedResult sql' lastError' attempts', c1, store)
            else loop env dbType maxR fuel (n + 1) genRes' sql' lastError' attempts' store c1
      | (.exn genRes' sql' e, c1) =>
          let attempt : CorrectionAttempt :=
            { attempt_number := n, sql := some (sql'.getD ""), error := some e,
              error_type := .unknown, success := false,
              execution_time_ms := none, row_count := none }
          let attempts' := attempts ++ [attempt]
          if maxR ≤ n then (exhaustedResult sql' (some e) attempts', c1, store)
          else loop env dbType maxR fuel (n + 1) genRes' sql' (some e) attempts' store c1

/-- `SelfCorrectingSQLAgent.generate_and_execute_with_retry`. -/
def generate_and_execute_with_retry (env : Env) (learnerStore : Option Learner.Store)
    (dbType : String) (maxR : Nat) : RunOut × Calls × Option Learner.Store :=
  loop env dbType maxR maxR 1 none none none [] learnerStore {}

/-- The `sql` local variable as it stands at the end of an iteration body
(observable in both outcomes). -/
def bodySql : BodyOut → Option String
  | .ok _ sql _ => sql
  | .exn _ sql _ => sql

/-- The attempt-trail shape asserted by the spec: at most one successful
entry, and only in last position. -/
def successOnlyLast (l : List CorrectionAttempt) : Prop :=
  (l.filter (fun a => a.success)).length ≤ 1 ∧
  ∀ i (h : i < l.length), (l.get ⟨i, h⟩).success = true → i + 1 = l.length

end DatabaseGuru.Agent

namespace DatabaseGuru.Agent

open DatabaseGuru DatabaseGuru.SelfCorrecting

/-- The per-attempt record dictionary of `execute_with_retry` (`error_type`
holds `.value` strings, `None` on success). -/
structure AttemptInfo where
  attempt_number : Nat
  sql : String
  error : Option String
  error_type : Option String
  success : Bool
  execution_time_ms : Option ℚ
  row_count : Option Int
deriving DecidableEq, Repr

/-- The result dictionary of `execute_with_retry`. -/
structure RunOut2 where
  success : Bool
  sql : String
  result : Option ExecResult
  final_error : Option String
  corrections : List AttemptInfo
  attempts : Nat
  self_corrected : Bool
deriving Repr

/-- The failure return of `execute_with_retry`. -/
def ewrExhausted (cur : String) (lastError : Option String)
    (atts : List AttemptInfo) : RunOut2 :=
  { success := false, sql := cur, result := none, final_error := lastError,
    corrections := atts, attempts := atts.length, self_corrected := 1 < atts.length }

/-- The retry loop of `execute_with_retry`: execute first, then (short of the
budget) diagnose and call the LLM `fix_sql_error`, all inside one `try`.  An
exception from `fix_sql_error` therefore appends a second record for the
same iteration (the executed attempt was already recorded). -/
def ewrLoop (env : Env) (maxR : Nat) :
    Nat → Nat → String → Option String → List AttemptInfo → Calls → RunOut2 × Calls
  | 0, _, cur, lastError, atts, c => (ewrExhausted cur lastError atts, c)
  | fuel + 1, n, cur, _lastError, atts, c =>
      match env.execute n (some cur) with
      | .error e =>
          let c1 := { c with execute := c.execute + 1 }
          let atts' := atts ++ [⟨n, cur, some e, some ErrorType.unknown.value, false, none, none⟩]
          if maxR ≤ n then (ewrExhausted cur (some e) atts', c1)
          else ewrLoop env maxR fuel (n + 1) cur (some e) atts' c1
      | .ok exec =>
          let c1 := { c with execute := c.execute + 1 }
          let info : AttemptInfo :=
            { attempt_number := n, sql := cur,
              error := if exec.success then none else some exec.error,
              error_type := if exec.success then none
                            else some (categorize_error exec.error).value,
              success := exec.success,
              execution_time_ms := exec.execution_time_ms, row_count := exec.row_count }
          let atts' := atts ++ [info]
          if exec.success then
            ({ success := true, sql := cur, result := some exec, final_error := none,
               corrections := atts', attempts := n, self_corrected := 1 < n }, c1)
          else
            let le := exec.error
            if maxR ≤ n then (ewrExhausted cur (some le) atts', c1)
            else
              let error_type := categorize_error le
              let error_context := extract_error_context le error_type
              let hints := generate_fix_hints error_type error_context
              let enhanced_error := le ++ "\n\nHints:\n" ++ hints
              match env.fixError n (some cur) enhanced_error with
              | .ok f =>
                  ewrLoop env maxR fuel (n + 1) f.sql (some le) atts'
                    { c1 with fixError := c1.fixError + 1 }
              | .error e =>
                  let c2 := { c1 with fixError := c1.fixError + 1 }
                  let atts'' := atts' ++
                    [⟨n, cur, some e, some ErrorType.unknown.value, false, none, none⟩]
                  ewrLoop env maxR fuel (n + 1) cur (some e) atts'' c2

/-- `SelfCorrectingSQLAgent.execute_with_retry`: repair-on-failure for
pre-generated SQL.  It consults neither the schema-aware fixer nor the
correction learner. -/
def execute_with_retry (env : Env) (sql : String) (maxR : Nat) : RunOut2 × Calls :=
  ewrLoop env maxR maxR 1 sql none [] {}

end DatabaseGuru.Agent

namespace DatabaseGuru.Fixtures

open DatabaseGuru DatabaseGuru.SelfCorrecting DatabaseGuru.SchemaFix DatabaseGuru.Agent
open DatabaseGuru.Verify DatabaseGuru.Learner

/-! ### Concrete collaborator stubs used by witnesses and counterexamples -/

/-- A schema with a single table `users`. -/
def schemaUsers : Schema := [("users", ⟨["id", "name", "email"]⟩)]

/-- A successful execution result. -/
def execOk : Agent.ExecResult := ⟨true, "", some 12, some 5⟩

/-- The misspelled-table failure produced by the execution stub. -/
def usrsError : String := "relation \"usrs\" does not exist"

def execFailUsrs : Agent.ExecResult := ⟨false, usrsError, some 3, some 0⟩

/-- C1's scenario: generation returns SQL with a misspelled table, execution
succeeds exactly on the corrected SQL, the schema knows `users`, and the
LLM fix path would be observable through `fixError`. -/
def envC1 : Env :=
  { generate := .ok ⟨"SELECT * FROM usrs"⟩,
    fixError := fun _ _ _ => .ok ⟨"LLM FIX - MUST NOT BE CALLED"⟩,
    execute := fun _ s => if s = some "SELECT * FROM users" then .ok execOk else .ok execFailUsrs,
    schemaFixer := some schemaUsers }

/-- An execution stub that always fails (C2's witness). -/
def envAlwaysFail : Env :=
  { generate := .ok ⟨"SELECT 1"⟩,
    fixError := fun _ _ _ => .ok ⟨"SELECT 2"⟩,
    execute := fun _ _ => .ok ⟨false, "boom", none, none⟩,
    schemaFixer := none }

/-- An execution stub whose first call raises an exception whose text is a
syntax-error message (C4's counterexample). -/
def envExecRaises : Env :=
  { generate := .ok ⟨"SELECT 1"⟩,
    fixError := fun _ _ _ => .ok ⟨"SELECT 2"⟩,
    execute := fun n _ => if n = 1 then .error "syntax error near SELECT" else .ok ⟨false, "boom", none, none⟩,
    schemaFixer := none }

/-- C10's scenario: a failing first execution with an unclassifiable error,
a learner, and a schema fixer; the second attempt succeeds, so the run
consults the quick fixer, the learner lookup, and the learner update. -/
def envC10 : Env :=
  { generate := .ok ⟨"Q1"⟩,
    fixError := fun _ _ _ => .ok ⟨"Q2"⟩,
    execute := fun _ s => if s = some "Q2" then .ok execOk else .ok ⟨false, "zzz mystery failure", none, none⟩,
    schemaFixer := some schemaUsers }

/-- C7: a successful result whose only cell is a negative count of magnitude
above the extreme-value threshold: the extreme-value check (which runs
earlier) fires first. -/
def negBigRow : Verify.Row := [("count", Value.vInt (-2000000000))]

def negBigResult : VExecResult :=
  { success := true, data := [negBigRow], columns := ["count"], row_count := 1 }

/-- C7 witness: a negative count of small magnitude, on which no earlier
check fires. -/
def negSmallRow : Verify.Row := [("order_count", Value.vInt (-5))]

def negSmallResult : VExecResult :=
  { success := true, data := [negSmallRow], columns := ["order_count"], row_count := 1 }

/-- C9's asymmetry pair (difflib's Ratcliff/Obershelp ratio is not
commutative). -/
def gestaltA : String := "gestalt pattern matching"

def gestaltB : String := "gestalt practice"

/-- C8 witness inputs. -/
def c8Error : String := "no such table: usrs"

end DatabaseGuru.Fixtures

namespace DatabaseGuru

open DatabaseGuru.SelfCorrecting

/-! ### Supporting lemmas -/

theorem leadsWith_map_toLower {p s : List Char} (h : leadsWith p s = true) :
    leadsWith (p.map Char.toLower) (s.map Char.toLower) = true := by
  induction p generalizing s with
  | nil => simp [leadsWith]
  | cons a as ih =>
      cases s with
      | nil => simp [leadsWith] at h
      | cons c cs =>
          simp only [leadsWith, Bool.and_eq_true, decide_eq_true_eq] at h
          simp only [List.map_cons, leadsWith, Bool.and_eq_true, decide_eq_true_eq]
          exact ⟨by rw [h.1], ih h.2⟩

theorem containsSub_map_toLower {p s : List Char} (h : containsSub p s = true) :
    containsSub (p.map Char.toLower) (s.map Char.toLower) = true := by
  induction s with
  | nil =>
      simp only [containsSub] at h ⊢
      exact leadsWith_map_toLower h
  | cons c cs ih =>
      simp only [containsSub, Bool.or_eq_true] at h ⊢
      cases h with
      | inl h => exact Or.inl (leadsWith_map_toLower (p := p) (s := c :: cs) h)
      | inr h => exact Or.inr (ih h)

/-- Raw-text containment of an already-lower-case pattern survives
lower-casing of the text. -/
theorem strContains_lower_of_strContains (msg pat : String)
    (hpat : pat.data.map Char.toLower = pat.data)
    (h : strContains msg pat = true) : strContains (lowerStr msg) pat = true := by
  have := containsSub_map_toLower (p := pat.data) (s := msg.data) h
  rwa [hpat] at this

/-! ### C5 -/

/-- C5: `categorize_error` evaluates the lower-cased keyword-group tests in
the fixed priority order syntax → table → column → type → permission →
timeout (equal to the first-match rule-list reading of the spec, with
`Unknown` when no group matches), and every error text containing the
substring `does not exist` whose lower-casing matches no syntax keyword is
classified `TableNotFound`. -/
theorem C5_categorize_priority_and_does_not_exist :
    (∀ msg : String, categorize_error msg = firstMatch (lowerStr msg) classifierRules) ∧
    (∀ msg : String,
      anyKeyword (lowerStr msg) syntaxKeywords = false →
      strContains msg "does not exist" = true →
      categorize_error msg = .tableNotFound) := by
  constructor
  · intro msg
    rfl
  · intro msg h1 h2
    have hpat : ("does not exist" : String).data.map Char.toLower = ("does not exist" : String).data := by
      decide
    have htab : anyKeyword (lowerStr msg) tableKeywords = true := by
      have hlow := strContains_lower_of_strContains msg "does not exist" hpat h2
      simp only [anyKeyword, tableKeywords, List.any_cons, List.any_nil, Bool.or_eq_true]
      exact Or.inr (Or.inr (Or.inl hlow))
    simp only [categorize_error, h1, Bool.false_eq_true, if_false, htab, if_true]

/-- Witness for C5 at a concrete erroneous-table message. -/
theorem C5_witness :
    categorize_error "relation \"usrs\" does not exist" = .tableNotFound :=
  C5_categorize_priority_and_does_not_exist.2 "relation \"usrs\" does not exist"
    (by decide) (by decide)

end DatabaseGuru

namespace DatabaseGuru

open DatabaseGuru.SelfCorrecting DatabaseGuru.SchemaFix

/-! ### C6 -/

theorem fix_table_success_le_conf (schema : Schema) (sql : Option String)
    (err : String) (ctx : ErrCtx) :
    (fix_table_not_found schema sql err ctx).success = true →
    mkRat 7 10 ≤ (fix_table_not_found schema sql err ctx).confidence := by
  intro h
  rcases hc : ctx.missingTable with _ | t
  · rcases he : fixer_extract_table_name err with _ | t
    · simp [fix_table_not_found, hc, he] at h
    · rcases hf : find_best_match t (tableNames schema) (mkRat 6 10) with _ | ⟨c0, s0⟩
      · simp [fix_table_not_found, hc, he, hf] at h
      · by_cases hlt : s0 < mkRat 7 10
        · simp [fix_table_not_found, hc, he, hf, hlt] at h
        · cases sql with
          | none => simp [fix_table_not_found, hc, he, hf, hlt] at h
          | some s =>
              simp [fix_table_not_found, hc, he, hf, hlt]
              linarith [not_lt.mp hlt]
  · rcases hf : find_best_match t (tableNames schema) (mkRat 6 10) with _ | ⟨c0, s0⟩
    · simp [fix_table_not_found, hc, hf] at h
    · by_cases hlt : s0 < mkRat 7 10
      · simp [fix_table_not_found, hc, hf, hlt] at h
      · cases sql with
        | none => simp [fix_table_not_found, hc, hf, hlt] at h
        | some s =>
            simp [fix_table_not_found, hc, hf, hlt]
            linarith [not_lt.mp hlt]

theorem fix_column_success_le_conf (schema : Schema) (sql : Option String)
    (err : String) (ctx : ErrCtx) :
    (fix_column_not_found schema sql err ctx).success = true →
    mkRat 7 10 ≤ (fix_column_not_found schema sql err ctx).confidence := by
  intro h
  have main : ∀ (name : String) (s : String),
      (fix_column_not_found schema (some s) err ctx).success = true →
      (match ctx.missingColumn with
        | some c => some c
        | none => fixer_extract_column_name err) = some name →
      mkRat 7 10 ≤ (fix_column_not_found schema (some s) err ctx).confidence := by
    intro name s hs hname
    rcases hf : find_best_match name
        (match identify_table_from_sql schema s with
          | some t => (columnsOf schema t).getD (allColumns schema)
          | none => allColumns schema) (mkRat 6 10) with _ | ⟨c0, s0⟩
    · simp [fix_column_not_found, hname, hf] at hs
    · by_cases hlt : s0 < mkRat 7 10
      · simp [fix_column_not_found, hname, hf, hlt] at hs
      · simp [fix_column_not_found, hname, hf, hlt]
        linarith [not_lt.mp hlt]
  rcases hname : (match ctx.missingColumn with
      | some c => some c
      | none => fixer_extract_column_name err) with _ | name
  · simp [fix_column_not_found, hname] at h
  · cases sql with
    | none => simp [fix_column_not_found, hname] at h
    | some s => exact main name s h hname

end DatabaseGuru

namespace DatabaseGuru

open DatabaseGuru.SelfCorrecting DatabaseGuru.SchemaFix

/-- C6: for TableNotFound/ColumnNotFound, `quick_fix` applies a replacement
(success) only when the best fuzzy match reaches confidence 0.7; a best
match in the 0.6–0.7 band yields failure that still reports the match's
confidence; no candidate at 0.6 yields plain failure. -/
theorem C6_quick_fix_threshold_gate :
    (∀ (schema : Schema) (sql : Option String) (err : String) (ctx : ErrCtx),
      ((quick_fix schema sql .tableNotFound err ctx).success = true →
        mkRat 7 10 ≤ (quick_fix schema sql .tableNotFound err ctx).confidence) ∧
      ((quick_fix schema sql .columnNotFound err ctx).success = true →
        mkRat 7 10 ≤ (quick_fix schema sql .columnNotFound err ctx).confidence)) ∧
    (∀ (schema : Schema) (sql : Option String) (err : String) (ctx : ErrCtx) (name : String),
      (match ctx.missingTable with
        | some t => some t
        | none => fixer_extract_table_name err) = some name →
      (find_best_match name (tableNames schema) (mkRat 6 10) = none →
        quick_fix schema sql .tableNotFound err ctx = ⟨false, none, none, none, none, 0, none⟩) ∧
      (∀ cand score, find_best_match name (tableNames schema) (mkRat 6 10) = some (cand, score) →
        (score < mkRat 7 10 →
          quick_fix schema sql .tableNotFound err ctx = ⟨false, none, none, none, none, score, none⟩) ∧
        (mkRat 7 10 ≤ score → ∀ s, sql = some s →
          quick_fix schema sql .tableNotFound err ctx =
            ⟨true, some (replaceWordCI s name cand), some "table_name", some name, some cand, score,
             some ("Corrected table name: " ++ name ++ " → " ++ cand)⟩))) ∧
    (∀ (schema : Schema) (sql : Option String) (err : String) (ctx : ErrCtx) (name : String),
      (match ctx.missingColumn with
        | some c => some c
        | none => fixer_extract_column_name err) = some name →
      ∀ s, sql = some s →
      (find_best_match name
          (match identify_table_from_sql schema s with
            | some t => (columnsOf schema t).getD (allColumns schema)
            | none => allColumns schema) (mkRat 6 10) = none →
        quick_fix schema sql .columnNotFound err ctx = ⟨false, none, none, none, none, 0, none⟩) ∧
      (∀ cand score, find_best_match name
          (match identify_table_from_sql schema s with
            | some t => (columnsOf schema t).getD (allColumns schema)
            | none => allColumns schema) (mkRat 6 10) = some (cand, score) →
        (score < mkRat 7 10 →
          quick_fix schema sql .columnNotFound err ctx = ⟨false, none, none, none, none, score, none⟩) ∧
        (mkRat 7 10 ≤ score →
          quick_fix schema sql .columnNotFound err ctx =
            ⟨true, some (replaceWordCI s name cand), some "column_name", some name, some cand, score,
             some ("Corrected column name: " ++ name ++ " → " ++ cand)⟩))) := by
  refine ⟨fun schema sql err ctx => ⟨?_, ?_⟩, fun schema sql err ctx name hname => ⟨?_, ?_⟩,
          fun schema sql err ctx name hname s hs => ⟨?_, ?_⟩⟩
  · exact fix_table_success_le_conf schema sql err ctx
  · exact fix_column_success_le_conf schema sql err ctx
  · intro hf
    simp [quick_fix, fix_table_not_found, hname, hf]
  · intro cand score hf
    constructor
    · intro hlt
      simp [quick_fix, fix_table_not_found, hname, hf, hlt]
    · intro hge s hs
      have hlt : ¬ score < mkRat 7 10 := not_lt.mpr hge
      simp [quick_fix, fix_table_not_found, hname, hf, hlt, hs]
  · intro hf
    simp [quick_fix, fix_column_not_found, hname, hs, hf]
  · intro cand score hf
    constructor
    · intro hlt
      simp [quick_fix, fix_column_not_found, hname, hs, hf, hlt]
    · intro hge
      have hlt : ¬ score < mkRat 7 10 := not_lt.mpr hge
      simp [quick_fix, fix_column_not_found, hname, hs, hf, hlt]

end DatabaseGuru

namespace DatabaseGuru

open DatabaseGuru.SelfCorrecting DatabaseGuru.SchemaFix

/-- Witness for C6: the three behaviours at concrete inputs (match at 8/9 ≥
0.7 applied; match at 2/3 ∈ [0.6, 0.7) reported but not applied; no match at
0.6 for an unrelated name). -/
theorem C6_witness :
    quick_fix Fixtures.schemaUsers (some "SELECT * FROM usrs") .tableNotFound
        Fixtures.usrsError {} =
      ⟨true, some (replaceWordCI "SELECT * FROM usrs" "usrs" "users"), some "table_name",
       some "usrs", some "users", mkRat 8 9, some ("Corrected table name: " ++ "usrs" ++ " → " ++ "users")⟩ ∧
    quick_fix Fixtures.schemaUsers (some "SELECT * FROM usra") .tableNotFound
        "no such table: usra" {} =
      ⟨false, none, none, none, none, mkRat 2 3, none⟩ ∧
    quick_fix Fixtures.schemaUsers (some "SELECT 1") .tableNotFound
        "no such table: xyz123" {} =
      ⟨false, none, none, none, none, 0, none⟩ := by
  refine ⟨?_, ?_, ?_⟩
  · exact ((C6_quick_fix_threshold_gate.2.1 Fixtures.schemaUsers (some "SELECT * FROM usrs")
      Fixtures.usrsError {} "usrs" (by decide)).2 "users" (mkRat 8 9) (by decide)).2
      (by decide) "SELECT * FROM usrs" rfl
  · exact ((C6_quick_fix_threshold_gate.2.1 Fixtures.schemaUsers (some "SELECT * FROM usra")
      "no such table: usra" {} "usra" (by decide)).2 "users" (mkRat 2 3) (by decide)).1 (by decide)
  · exact (C6_quick_fix_threshold_gate.2.1 Fixtures.schemaUsers (some "SELECT 1")
      "no such table: xyz123" {} "xyz123" (by decide)).1 (by decide)

end DatabaseGuru

namespace DatabaseGuru

open DatabaseGuru.Verify

/-! ### C7 -/

theorem foldl_collect {α β : Type} (f : α → List β) :
    ∀ (l : List α) (acc : List β),
      l.foldl (fun a r => a ++ f r) acc = acc ++ (l.map f).flatten := by
  intro l
  induction l with
  | nil => intro acc; simp
  | cons r rs ih =>
      intro acc
      simp only [List.foldl_cons, List.map_cons, List.flatten_cons, ih, List.append_assoc]

theorem negItem_eq_none_iff (kv : String × Value) :
    negItem kv = none ↔ negCell kv = false := by
  rcases hn : kv.2.asNum with _ | q
  · simp [negItem, hn, negCell]
  · by_cases h1 : strContains (lowerStr kv.1) "count" = true <;>
      by_cases h2 : q < 0 <;>
        simp [negItem, hn, h1, h2, negCell, not_lt.mp]

theorem filterMap_negItem_isEmpty (row : Verify.Row) :
    (row.filterMap negItem).isEmpty = !(row.any negCell) := by
  induction row with
  | nil => simp
  | cons kv rest ih =>
      rcases hit : negItem kv with _ | p
      · have hfalse := (negItem_eq_none_iff kv).mp hit
        simp [List.filterMap_cons, hit, hfalse, ih]
      · have htrue : negCell kv = true := by
          by_contra hfb
          have hf : negCell kv = false := by simpa using hfb
          rw [(negItem_eq_none_iff kv).mpr hf] at hit
          exact Option.noConfusion hit
        simp [List.filterMap_cons, hit, htrue]

theorem flatten_head_isSome_eq_any {α β : Type} (g : α → List β) (data : List α) :
    ((data.map g).flatten.head?).isSome = data.any (fun r => !(g r).isEmpty) := by
  induction data with
  | nil => simp
  | cons r rs ih =>
      simp only [List.map_cons, List.flatten_cons, List.any_cons]
      cases hr : g r with
      | nil => simpa using ih
      | cons b bs => simp

theorem negcheck_suspicious_eq_any (data : List Verify.Row) :
    (check_negative_values data).is_suspicious =
      data.any (fun row => row.any negCell) := by
  unfold check_negative_values
  rw [foldl_collect]
  simp only [List.nil_append]
  have h := flatten_head_isSome_eq_any (fun row => row.filterMap negItem) data
  have h2 : (data.any fun r => !(r.filterMap negItem).isEmpty)
      = data.any (fun row => row.any negCell) := by
    have : (fun (r : Verify.Row) => !(r.filterMap negItem).isEmpty)
        = fun row => row.any negCell := by
      funext row
      rw [filterMap_negItem_isEmpty, Bool.not_not]
    rw [this]
  rcases hh : ((data.map (fun row => row.filterMap negItem)).flatten).head? with _ | p
  · rw [hh] at h
    simp only [Option.isSome_none, Eq.comm] at h
    rw [h2] at h
    simp [hh, ← h]
  · rw [hh] at h
    simp only [Option.isSome_some, Eq.comm] at h
    rw [h2] at h
    simp [hh, ← h]

end DatabaseGuru

namespace DatabaseGuru

open DatabaseGuru.Verify

/-- C7 counterexample: a successful result with a `count` column holding the
negative value −2·10⁹ — the negative-count condition of the claim holds —
yet `verify_results` reports ExtremeValue (the extreme-value check runs
earlier in the fixed order), not NegativeCount. -/
theorem C7_counterexample :
    Fixtures.negBigResult.success = true ∧
    Fixtures.negBigResult.data.any (fun row => row.any negCell) = true ∧
    (verify_results "how many users" "SELECT COUNT(*) AS count FROM t"
        Fixtures.negBigResult 1000000000).issue_type = .extremeValue ∧
    (verify_results "how many users" "SELECT COUNT(*) AS count FROM t"
        Fixtures.negBigResult 1000000000).issue_type ≠ .negativeCount := by
  refine ⟨rfl, by decide, by decide, by decide⟩

/-- C7 amended: for a successful result containing a row in which some
column whose name contains `count` holds a negative numeric value,
`verify_results` returns NegativeCount with confidence exactly 1.0 —
provided none of the checks that run *earlier* in the fixed order
(empty result, all-nulls, extreme value, unexpected count) fires; the
negative-count check runs last, so any earlier simultaneously-true check
takes priority over it. -/
theorem C7_negative_count_amended :
    ∀ (question sql : String) (res : VExecResult) (threshold : ℚ),
      res.success = true →
      res.row_count ≠ 0 →
      has_all_nulls res.data = false →
      (check_extreme_values res.data threshold).is_suspicious = false →
      (check_count_queries question sql res.data).is_suspicious = false →
      res.data.any (fun row => row.any negCell) = true →
      verify_results question sql res threshold = check_negative_values res.data ∧
      (verify_results question sql res threshold).issue_type = .negativeCount ∧
      (verify_results question sql res threshold).confidence = 1 ∧
      (verify_results question sql res threshold).is_suspicious = true := by
  intro question sql res th h1 h2 h3 h4 h5 h6
  have hsusp : (check_negative_values res.data).is_suspicious = true := by
    rw [negcheck_suspicious_eq_any]; exact h6
  have hmain : verify_results question sql res th = check_negative_values res.data := by
    unfold verify_results
    simp [h1, h2, h3, h4, h5, hsusp]
  have hkind : (check_negative_values res.data).issue_type = .negativeCount ∧
      (check_negative_values res.data).confidence = 1 := by
    unfold check_negative_values at hsusp ⊢
    rcases hh : ((res.data.foldl (fun acc row => acc ++ row.filterMap negItem) []).head?)
        with _ | p
    · rw [hh] at hsusp
      simp at hsusp
    · obtain ⟨c, q⟩ := p
      rw [hh]
      exact ⟨rfl, rfl⟩
  refine ⟨hmain, ?_, ?_, ?_⟩
  · rw [hmain]; exact hkind.1
  · rw [hmain]; exact hkind.2
  · rw [hmain]; exact hsusp

/-- Witness for C7's amended statement at a concrete small negative count. -/
theorem C7_witness :
    verify_results "how many orders" "SELECT COUNT(*) AS order_count FROM orders"
        Fixtures.negSmallResult 1000000000 =
      check_negative_values Fixtures.negSmallResult.data ∧
    (verify_results "how many orders" "SELECT COUNT(*) AS order_count FROM orders"
        Fixtures.negSmallResult 1000000000).issue_type = .negativeCount ∧
    (verify_results "how many orders" "SELECT COUNT(*) AS order_count FROM orders"
        Fixtures.negSmallResult 1000000000).confidence = 1 ∧
    (verify_results "how many orders" "SELECT COUNT(*) AS order_count FROM orders"
        Fixtures.negSmallResult 1000000000).is_suspicious = true :=
  C7_negative_count_amended "how many orders" "SELECT COUNT(*) AS order_count FROM orders"
    Fixtures.negSmallResult 1000000000 rfl (by decide) (by decide) (by decide) (by decide)
    (by decide)

end DatabaseGuru

namespace DatabaseGuru

open DatabaseGuru.SelfCorrecting DatabaseGuru.Learner

/-! ### C8 -/

theorem extract_patterns_key_fields (et : ErrorType) (sql e fix : String) :
    (extract_patterns et sql e fix).error_pattern = normalize_error e ∧
    (extract_patterns et sql e fix).table_pattern =
      (if et = .tableNotFound then learner_extract_table_name e else none) ∧
    (extract_patterns et sql e fix).column_pattern =
      (if et = .columnNotFound then learner_extract_column_name e else none) := by
  unfold extract_patterns
  rcases et <;>
    rcases ht : learner_extract_table_name e with _ | t <;>
      rcases hc : learner_extract_column_name e with _ | c <;>
        simp [ht, hc]

end DatabaseGuru

namespace DatabaseGuru

open DatabaseGuru.SelfCorrecting DatabaseGuru.Learner

/-- C8: starting from a learner store with no similar correction and a fresh
autoincrement id, calling `learn_from_correction` twice with
`was_successful=true` and identical error kind, normalized error pattern,
database kind and table/column patterns — but different literal SQL — makes
the first call create the record (`times_applied = 1`, initial confidence
`mkRat 7 10` = 0.7) and the second call return the *same* correction id with
`times_applied = 2` and confidence raised by 0.1 and clamped to 1
(`mkRat 4 5` = 0.8). -/
theorem C8_learn_twice_same_id :
    ∀ (et : ErrorType) (db sql1 sql2 fix1 fix2 e1 e2 : String) (store0 : Learner.Store),
      normalize_error e1 = normalize_error e2 →
      learner_extract_table_name e1 = learner_extract_table_name e2 →
      learner_extract_column_name e1 = learner_extract_column_name e2 →
      find_similar store0 et (extract_patterns et sql1 e1 fix1).error_pattern db
        (extract_patterns et sql1 e1 fix1).table_pattern
        (extract_patterns et sql1 e1 fix1).column_pattern = none →
      (∀ r ∈ store0.recs, r.id ≠ store0.nextId) →
      (learn_from_correction store0 true et sql1 e1 fix1 db true).1 = some store0.nextId ∧
      ((learn_from_correction store0 true et sql1 e1 fix1 db true).2.recs.find?
          (fun r => r.id = store0.nextId)).map
          (fun r => (r.times_applied, r.confidence_score)) = some (1, mkRat 7 10) ∧
      (learn_from_correction
          (learn_from_correction store0 true et sql1 e1 fix1 db true).2
          true et sql2 e2 fix2 db true).1 = some store0.nextId ∧
      ((learn_from_correction
          (learn_from_correction store0 true et sql1 e1 fix1 db true).2
          true et sql2 e2 fix2 db true).2.recs.find?
          (fun r => r.id = store0.nextId)).map
          (fun r => (r.times_applied, r.confidence_score)) = some (2, mkRat 4 5) := by
  intro et db sql1 sql2 fix1 fix2 e1 e2 store0 hnorm htab hcol hfind hfresh
  obtain ⟨hep1, htp1, hcp1⟩ := extract_patterns_key_fields et sql1 e1 fix1
  obtain ⟨hep2, htp2, hcp2⟩ := extract_patterns_key_fields et sql2 e2 fix2
  have heq_ep : (extract_patterns et sql2 e2 fix2).error_pattern =
      (extract_patterns et sql1 e1 fix1).error_pattern := by rw [hep1, hep2, hnorm]
  have heq_tp : (extract_patterns et sql2 e2 fix2).table_pattern =
      (extract_patterns et sql1 e1 fix1).table_pattern := by rw [htp1, htp2, htab]
  have heq_cp : (extract_patterns et sql2 e2 fix2).column_pattern =
      (extract_patterns et sql1 e1 fix1).column_pattern := by rw [hcp1, hcp2, hcol]
  -- the record created by the first call
  have hc1 : learn_from_correction store0 true et sql1 e1 fix1 db true =
      (some store0.nextId,
       ⟨store0.recs ++
        [{ id := store0.nextId, error_type := et.value,
           error_pattern := (extract_patterns et sql1 e1 fix1).error_pattern,
           database_type := db, original_sql := sql1, original_error := e1,
           corrected_sql := fix1,
           correction_description := (extract_patterns et sql1 e1 fix1).description,
           table_pattern := (extract_patterns et sql1 e1 fix1).table_pattern,
           column_pattern := (extract_patterns et sql1 e1 fix1).column_pattern,
           times_applied := 1, success_rate := 1, confidence_score := mkRat 7 10 }],
        store0.nextId + 1⟩) := by
    unfold learn_from_correction
    simp [hfind]
  rw [hc1]
  set c1 : LearnedCorrection :=
    { id := store0.nextId, error_type := et.value,
      error_pattern := (extract_patterns et sql1 e1 fix1).error_pattern,
      database_type := db, original_sql := sql1, original_error := e1,
      corrected_sql := fix1,
      correction_description := (extract_patterns et sql1 e1 fix1).description,
      table_pattern := (extract_patterns et sql1 e1 fix1).table_pattern,
      column_pattern := (extract_patterns et sql1 e1 fix1).column_pattern,
      times_applied := 1, success_rate := 1, confidence_score := mkRat 7 10 } with hc1def
  -- lookups in the appended store
  have hfind_old : ∀ (p : Patterns → Bool → Bool → Bool) , True := fun _ => trivial
  -- predicate of find_similar for the second call's patterns agrees with the first's
  have hpred_eq : (fun (r : LearnedCorrection) =>
        r.error_type = et.value && r.database_type = db &&
        r.error_pattern = (extract_patterns et sql2 e2 fix2).error_pattern &&
        (!truthy (extract_patterns et sql2 e2 fix2).table_pattern ||
          r.table_pattern = (extract_patterns et sql2 e2 fix2).table_pattern) &&
        (!truthy (extract_patterns et sql2 e2 fix2).column_pattern ||
          r.column_pattern = (extract_patterns et sql2 e2 fix2).column_pattern)) =
      (fun (r : LearnedCorrection) =>
        r.error_type = et.value && r.database_type = db &&
        r.error_pattern = (extract_patterns et sql1 e1 fix1).error_pattern &&
        (!truthy (extract_patterns et sql1 e1 fix1).table_pattern ||
          r.table_pattern = (extract_patterns et sql1 e1 fix1).table_pattern) &&
        (!truthy (extract_patterns et sql1 e1 fix1).column_pattern ||
          r.column_pattern = (extract_patterns et sql1 e1 fix1).column_pattern)) := by
    funext r
    rw [heq_ep, heq_tp, heq_cp]
  have hsim2 : find_similar ⟨store0.recs ++ [c1], store0.nextId + 1⟩ et
      (extract_patterns et sql2 e2 fix2).error_pattern db
      (extract_patterns et sql2 e2 fix2).table_pattern
      (extract_patterns et sql2 e2 fix2).column_pattern = some c1 := by
    unfold find_similar
    simp only []
    rw [List.find?_append]
    have hnone : (store0.recs.find? (fun r =>
        r.error_type = et.value && r.database_type = db &&
        r.error_pattern = (extract_patterns et sql2 e2 fix2).error_pattern &&
        (!truthy (extract_patterns et sql2 e2 fix2).table_pattern ||
          r.table_pattern = (extract_patterns et sql2 e2 fix2).table_pattern) &&
        (!truthy (extract_patterns et sql2 e2 fix2).column_pattern ||
          r.column_pattern = (extract_patterns et sql2 e2 fix2).column_pattern))) = none := by
      rw [hpred_eq]
      have := hfind
      unfold find_similar at this
      exact this
    rw [hnone]
    have hc1hit : (List.find? (fun r =>
        r.error_type = et.value && r.database_type = db &&
        r.error_pattern = (extract_patterns et sql2 e2 fix2).error_pattern &&
        (!truthy (extract_patterns et sql2 e2 fix2).table_pattern ||
          r.table_pattern = (extract_patterns et sql2 e2 fix2).table_pattern) &&
        (!truthy (extract_patterns et sql2 e2 fix2).column_pattern ||
          r.column_pattern = (extract_patterns et sql2 e2 fix2).column_pattern)) [c1]) = some c1 := by
      rw [hpred_eq]
      simp [List.find?, hc1def]
    rw [hc1hit]
    rfl
  -- the second call takes the update branch
  have hc2 : learn_from_correction ⟨store0.recs ++ [c1], store0.nextId + 1⟩
      true et sql2 e2 fix2 db true =
      (some c1.id,
       ⟨(store0.recs ++ [c1]).map (fun r => if r.id = c1.id then
          { c1 with
            times_applied := c1.times_applied + 1,
            confidence_score := qmin 1 (qadd c1.confidence_score (mkRat 1 10)) } else r),
        store0.nextId + 1⟩) := by
    unfold learn_from_correction
    simp [hsim2]
  rw [hc2]
  refine ⟨rfl, ?_, ?_, ?_⟩
  · rw [List.find?_append]
    have hnone : (store0.recs.find? (fun r => r.id = store0.nextId)) = none := by
      rw [List.find?_eq_none]
      intro r hr
      simpa using hfresh r hr
    rw [hnone]
    simp [List.find?, hc1def]
  · simp [hc1def]
  · have hmap : (store0.recs ++ [c1]).map (fun r => if r.id = c1.id then
        { c1 with
          times_applied := c1.times_applied + 1,
          confidence_score := qmin 1 (qadd c1.confidence_score (mkRat 1 10)) } else r) =
        store0.recs ++
          [{ c1 with
             times_applied := c1.times_applied + 1,
             confidence_score := qmin 1 (qadd c1.confidence_score (mkRat 1 10)) }] := by
      rw [List.map_append]
      congr 1
      · have hid : ∀ r ∈ store0.recs,
            (fun (r : LearnedCorrection) => if r.id = c1.id then
              { c1 with
                times_applied := c1.times_applied + 1,
                confidence_score := qmin 1 (qadd c1.confidence_score (mkRat 1 10)) } else r) r
            = id r := by
          intro r hr
          have hne : r.id ≠ c1.id := by
            have := hfresh r hr
            simp only [hc1def]
            exact this
          simp [hne]
        rw [List.map_congr_left hid, List.map_id]
      · simp [hc1def]
    rw [hmap, List.find?_append]
    have hnone : (store0.recs.find? (fun r => r.id = store0.nextId)) = none := by
      rw [List.find?_eq_none]
      intro r hr
      simpa using hfresh r hr
    rw [hnone]
    have : qmin 1 (qadd (mkRat 7 10) (mkRat 1 10)) = mkRat 4 5 := by decide
    simp [List.find?, hc1def, this]

end DatabaseGuru

namespace DatabaseGuru

open DatabaseGuru.SelfCorrecting DatabaseGuru.Learner

/-- Witness for C8 at concrete inputs (same error text twice, different SQL
literals, empty store). -/
theorem C8_witness :
    (learn_from_correction Learner.emptyStore true .tableNotFound "SELECT 1 FROM usrs"
        Fixtures.c8Error "SELECT 1 FROM users" "postgresql" true).1 = some 1 ∧
    ((learn_from_correction Learner.emptyStore true .tableNotFound "SELECT 1 FROM usrs"
        Fixtures.c8Error "SELECT 1 FROM users" "postgresql" true).2.recs.find?
        (fun r => r.id = 1)).map (fun r => (r.times_applied, r.confidence_score)) =
      some (1, mkRat 7 10) ∧
    (learn_from_correction
        (learn_from_correction Learner.emptyStore true .tableNotFound "SELECT 1 FROM usrs"
          Fixtures.c8Error "SELECT 1 FROM users" "postgresql" true).2
        true .tableNotFound "SELECT id FROM usrs" Fixtures.c8Error "SELECT 1 FROM users"
        "postgresql" true).1 = some 1 ∧
    ((learn_from_correction
        (learn_from_correction Learner.emptyStore true .tableNotFound "SELECT 1 FROM usrs"
          Fixtures.c8Error "SELECT 1 FROM users" "postgresql" true).2
        true .tableNotFound "SELECT id FROM usrs" Fixtures.c8Error "SELECT 1 FROM users"
        "postgresql" true).2.recs.find?
        (fun r => r.id = 1)).map (fun r => (r.times_applied, r.confidence_score)) =
      some (2, mkRat 4 5) :=
  C8_learn_twice_same_id .tableNotFound "postgresql" "SELECT 1 FROM usrs" "SELECT id FROM usrs"
    "SELECT 1 FROM users" "SELECT 1 FROM users" Fixtures.c8Error Fixtures.c8Error
    Learner.emptyStore rfl rfl rfl (by decide) (by simp [Learner.emptyStore])

end DatabaseGuru


namespace DatabaseGuru

open DatabaseGuru.SelfCorrecting DatabaseGuru.Agent

theorem take_of_take_append {α : Type} (xs atts : List α) (a : α)
    (h : xs.take (atts.length + 1) = atts ++ [a]) :
    xs.take atts.length = atts ∧ atts.length ≤ xs.length := by
  constructor
  · have h2 := congrArg (List.take atts.length) h
    rw [List.take_take] at h2
    rw [Nat.min_eq_left (Nat.le_succ _)] at h2
    rw [h2, List.take_left]
  · have h3 := congrArg List.length h
    simp only [List.length_take, List.length_append, List.length_cons, List.length_nil] at h3
    omega

theorem loop_attempts_prefix (env : Env) (dbType : String) (maxR : Nat) :
    ∀ (fuel n : Nat) (genRes : Option GenResult) (sql le : Option String)
      (atts : List CorrectionAttempt) (store : Option Learner.Store) (c : Calls),
      ((loop env dbType maxR fuel n genRes sql le atts store c).1.attempts.take atts.length
        = atts) ∧
      atts.length ≤ (loop env dbType maxR fuel n genRes sql le atts store c).1.attempts.length := by
  intro fuel
  induction fuel with
  | zero =>
      intro n genRes sql le atts store c
      exact ⟨by simp [loop, exhaustedResult], by simp [loop, exhaustedResult]⟩
  | succ f ih =>
      intro n genRes sql le atts store c
      rcases hb : attemptBody env store dbType n genRes sql le c with ⟨bo, c1⟩
      cases bo with
      | ok genRes' sql' exec =>
          by_cases hs : exec.success = true
          · constructor
            · simp only [loop, hb, hs, if_true]
              exact List.take_left _ _
            · simp only [loop, hb, hs, if_true]
              simp
          · have hs' : exec.success = false := by simpa using hs
            by_cases hn : maxR ≤ n
            · constructor
              · simp only [loop, hb, hs', Bool.false_eq_true, if_false, hn, if_true,
                  exhaustedResult]
                exact List.take_left _ _
              · simp only [loop, hb, hs', Bool.false_eq_true, if_false, hn, if_true,
                  exhaustedResult]
                simp
            · have hrec := ih (n + 1) genRes' sql' (some exec.error)
                (atts ++ [⟨n, sql', some exec.error, categorize_error exec.error,
                  false, exec.execution_time_ms, exec.row_count⟩])
                store c1
              rw [List.length_append, List.length_cons, List.length_nil, Nat.add_zero] at hrec
              have h1 := take_of_take_append _ _ _ hrec.1
              constructor
              · simp only [loop, hb, hs', Bool.false_eq_true, if_false, hn, if_false]
                exact h1.1
              · simp only [loop, hb, hs', Bool.false_eq_true, if_false, hn, if_false]
                calc atts.length ≤ atts.length + 1 := Nat.le_succ _
                _ ≤ _ := hrec.2
      | exn genRes' sql' e =>
          by_cases hn : maxR ≤ n
          · constructor
            · simp only [loop, hb, hn, if_true, exhaustedResult]
              exact List.take_left _ _
            · simp only [loop, hb, hn, if_true, exhaustedResult]
              simp
          · have hrec := ih (n + 1) genRes' sql' (some e)
              (atts ++ [⟨n, some (sql'.getD ""), some e, ErrorType.unknown, false, none, none⟩])
              store c1
            rw [List.length_append, List.length_cons, List.length_nil, Nat.add_zero] at hrec
            have h1 := take_of_take_append _ _ _ hrec.1
            constructor
            · simp only [loop, hb, hn, if_false]
              exact h1.1
            · simp only [loop, hb, hn, if_false]
              calc atts.length ≤ atts.length + 1 := Nat.le_succ _
              _ ≤ _ := hrec.2

end DatabaseGuru

namespace DatabaseGuru

open DatabaseGuru.SelfCorrecting DatabaseGuru.Agent

theorem execPhase_ok_execute (env : Env) (n : Nat) (genRes : Option GenResult)
    (sql : Option String) (c : Calls) {g : Option GenResult} {s : Option String}
    {exec : ExecResult} {c1 : Calls}
    (hp : execPhase env n genRes sql c = (.ok g s exec, c1)) :
    env.execute n s = .ok exec := by
  unfold execPhase at hp
  split at hp
  · simp at hp
  · split at hp
    next r hr =>
      simp only [Prod.mk.injEq, BodyOut.ok.injEq] at hp
      rw [← hp.1.2.1, ← hp.1.2.2]
      exact hr
    next e he => simp at hp

theorem attemptBody_ok_execute (env : Env) (store : Option Learner.Store)
    (dbType : String) (n : Nat) (genRes : Option GenResult) (sql0 : Option String)
    (le : Option String) (c : Calls) {g : Option GenResult} {s : Option String}
    {exec : ExecResult} {c1 : Calls}
    (hp : attemptBody env store dbType n genRes sql0 le c = (.ok g s exec, c1)) :
    ∃ s2, env.execute n s2 = .ok exec := by
  unfold attemptBody at hp
  split at hp
  · split at hp
    · simp at hp
    · exact ⟨s, execPhase_ok_execute _ _ _ _ _ hp⟩
  · simp only [] at hp
    split at hp
    · exact ⟨s, execPhase_ok_execute _ _ _ _ _ hp⟩
    · split at hp
      · simp at hp
      · exact ⟨s, execPhase_ok_execute _ _ _ _ _ hp⟩

theorem loop_no_success (env : Env) (dbType : String) (maxR : Nat)
    (hExec : ∀ n s r, env.execute n s = .ok r → r.success = false) :
    ∀ (fuel n : Nat) (genRes : Option GenResult) (sql le : Option String)
      (atts : List CorrectionAttempt) (store : Option Learner.Store) (c : Calls),
      (loop env dbType maxR fuel n genRes sql le atts store c).1.success = false := by
  intro fuel
  induction fuel with
  | zero =>
      intro n genRes sql le atts store c
      simp [loop, exhaustedResult]
  | succ f ih =>
      intro n genRes sql le atts store c
      rcases hb : attemptBody env store dbType n genRes sql le c with ⟨bo, c1⟩
      cases bo with
      | ok genRes' sql' exec =>
          obtain ⟨s2, he⟩ := attemptBody_ok_execute env store dbType n genRes sql le c hb
          have hs : exec.success = false := hExec _ _ _ he
          by_cases hn : maxR ≤ n
          · simp only [loop, hb, hs, Bool.false_eq_true, if_false, hn, if_true]
            simp [exhaustedResult]
          · simp only [loop, hb, hs, Bool.false_eq_true, if_false, hn, if_false]
            exact ih _ _ _ _ _ _ _
      | exn genRes' sql' e =>
          by_cases hn : maxR ≤ n
          · simp only [loop, hb, hn, if_true]
            simp [exhaustedResult]
          · simp only [loop, hb, hn, if_false]
            exact ih _ _ _ _ _ _ _

theorem loop_shape (env : Env) (dbType : String) (maxR : Nat) :
    ∀ (fuel n : Nat) (genRes : Option GenResult) (sql le : Option String)
      (atts : List CorrectionAttempt) (store : Option Learner.Store) (c : Calls),
      n + fuel = maxR + 1 → atts.length + 1 = n →
      (loop env dbType maxR fuel n genRes sql le atts store c).1.success = true ∨
      ((loop env dbType maxR fuel n genRes sql le atts store c).1.success = false ∧
       (loop env dbType maxR fuel n genRes sql le atts store c).1.attempts.length = maxR ∧
       (loop env dbType maxR fuel n genRes sql le atts store c).1.total_attempts = maxR) := by
  intro fuel
  induction fuel with
  | zero =>
      intro n genRes sql le atts store c h1 h2
      right
      refine ⟨by simp [loop, exhaustedResult], ?_, ?_⟩ <;>
        simp [loop, exhaustedResult] <;> omega
  | succ f ih =>
      intro n genRes sql le atts store c h1 h2
      rcases hb : attemptBody env store dbType n genRes sql le c with ⟨bo, c1⟩
      cases bo with
      | ok genRes' sql' exec =>
          by_cases hs : exec.success = true
          · left
            simp only [loop, hb, hs, if_true]
          · have hs' : exec.success = false := by simpa using hs
            by_cases hn : maxR ≤ n
            · right
              refine ⟨?_, ?_, ?_⟩ <;>
                simp only [loop, hb, hs', Bool.false_eq_true, if_false, hn, if_true,
                  exhaustedResult] <;>
                simp <;> omega
            · have := ih (n + 1) genRes' sql' (some exec.error)
                (atts ++ [⟨n, sql', some exec.error, categorize_error exec.error,
                  false, exec.execution_time_ms, exec.row_count⟩])
                store c1 (by omega) (by simp; omega)
              simpa only [loop, hb, hs', Bool.false_eq_true, if_false, hn, if_false] using this
      | exn genRes' sql' e =>
          by_cases hn : maxR ≤ n
          · right
            refine ⟨?_, ?_, ?_⟩ <;>
              simp only [loop, hb, hn, if_true, exhaustedResult] <;>
              simp <;> omega
          · have := ih (n + 1) genRes' sql' (some e)
              (atts ++ [⟨n, some (sql'.getD ""), some e, ErrorType.unknown, false, none, none⟩])
              store c1 (by omega) (by simp; omega)
            simpa only [loop, hb, hn, if_false] using this

end DatabaseGuru

namespace DatabaseGuru

open DatabaseGuru.SelfCorrecting DatabaseGuru.Agent DatabaseGuru.Fixtures

theorem successOnlyLast_append_one (l : List CorrectionAttempt) (a : CorrectionAttempt)
    (h : ∀ x ∈ l, x.success = false) : successOnlyLast (l ++ [a]) := by
  have h0 : l.filter (fun x => x.success) = [] := by
    rw [List.filter_eq_nil_iff]
    intro x hx
    simp [h x hx]
  constructor
  · rw [List.filter_append, h0]
    cases ha : a.success <;> simp [ha]
  · intro i hi hsucc
    by_cases hil : i < l.length
    · exfalso
      have hget : (l ++ [a]).get ⟨i, hi⟩ = l.get ⟨i, hil⟩ := by
        simp [List.get_eq_getElem, List.getElem_append_left hil]
      rw [hget] at hsucc
      have := h (l.get ⟨i, hil⟩) (l.get_mem i hil)
      rw [this] at hsucc
      exact Bool.false_ne_true hsucc
    · have hlen : i = l.length := by
        have := hi
        simp only [List.length_append, List.length_cons, List.length_nil] at this
        omega
      simp [List.length_append, hlen]

theorem successOnlyLast_of_allFalse (l : List CorrectionAttempt)
    (h : ∀ x ∈ l, x.success = false) : successOnlyLast l := by
  constructor
  · have h0 : l.filter (fun x => x.success) = [] := by
      rw [List.filter_eq_nil_iff]
      intro x hx
      simp [h x hx]
    simp [h0]
  · intro i hi hsucc
    exfalso
    have := h (l.get ⟨i, hi⟩) (l.get_mem i hi)
    rw [this] at hsucc
    exact Bool.false_ne_true hsucc

theorem allFalse_append_one {l : List CorrectionAttempt} {a : CorrectionAttempt}
    (h : ∀ x ∈ l, x.success = false) (ha : a.success = false) :
    ∀ x ∈ l ++ [a], x.success = false := by
  intro x hx
  rcases List.mem_append.mp hx with hx | hx
  · exact h x hx
  · rw [List.mem_singleton.mp hx]
    exact ha

theorem loop_successOnlyLast (env : Env) (dbType : String) (maxR : Nat) :
    ∀ (fuel n : Nat) (genRes : Option GenResult) (sql le : Option String)
      (atts : List CorrectionAttempt) (store : Option Learner.Store) (c : Calls),
      (∀ x ∈ atts, x.success = false) →
      successOnlyLast (loop env dbType maxR fuel n genRes sql le atts store c).1.attempts := by
  intro fuel
  induction fuel with
  | zero =>
      intro n genRes sql le atts store c hall
      exact successOnlyLast_of_allFalse atts hall
  | succ f ih =>
      intro n genRes sql le atts store c hall
      rcases hb : attemptBody env store dbType n genRes sql le c with ⟨bo, c1⟩
      cases bo with
      | ok genRes' sql' exec =>
          by_cases hs : exec.success = true
          · simp only [loop, hb, hs, if_true]
            exact successOnlyLast_append_one atts _ hall
          · have hs' : exec.success = false := by simpa using hs
            by_cases hn : maxR ≤ n
            · simp only [loop, hb, hs', Bool.false_eq_true, if_false, hn, if_true,
                exhaustedResult]
              exact successOnlyLast_of_allFalse _ (allFalse_append_one hall (by simp [hs']))
            · simp only [loop, hb, hs', Bool.false_eq_true, if_false, hn, if_false]
              exact ih _ _ _ _ _ _ _ (allFalse_append_one hall (by simp [hs']))
      | exn genRes' sql' e =>
          by_cases hn : maxR ≤ n
          · simp only [loop, hb, hn, if_true, exhaustedResult]
            exact successOnlyLast_of_allFalse _ (allFalse_append_one hall rfl)
          · simp only [loop, hb, hn, if_false]
            exact ih _ _ _ _ _ _ _ (allFalse_append_one hall rfl)

/-- C3: every run of `generate_and_execute_with_retry` yields an attempt
trail with at most one successful `CorrectionAttempt`, and a successful one
can only stand in last position. -/
theorem C3_at_most_one_success_last (env : Env) (store : Option Learner.Store)
    (dbType : String) (maxR : Nat) :
    successOnlyLast (generate_and_execute_with_retry env store dbType maxR).1.attempts := by
  simp only [generate_and_execute_with_retry]
  exact loop_successOnlyLast env dbType maxR maxR 1 none none none [] store {} (by simp)

/-- C2: against an execution collaborator that fails on every attempt, a run
with `max_retries = 3` terminates with `success = false`, `total_attempts = 3`
and exactly 3 recorded attempts. -/
theorem C2_always_fail_three_attempts (env : Env) (store : Option Learner.Store)
    (dbType : String)
    (hExec : ∀ n s r, env.execute n s = .ok r → r.success = false) :
    (generate_and_execute_with_retry env store dbType 3).1.success = false ∧
    (generate_and_execute_with_retry env store dbType 3).1.total_attempts = 3 ∧
    (generate_and_execute_with_retry env store dbType 3).1.attempts.length = 3 := by
  have h1 := loop_no_success env dbType 3 hExec 3 1 none none none [] store {}
  have h2 := loop_shape env dbType 3 3 1 none none none [] store {} (by omega) (by simp)
  simp only [generate_and_execute_with_retry]
  rcases h2 with h2 | ⟨_, hl, ht⟩
  · rw [h1] at h2
    exact absurd h2 (by simp)
  · exact ⟨h1, ht, hl⟩

/-- Witness for C2 at the always-failing execution stub. -/
theorem C2_witness :
    (generate_and_execute_with_retry envAlwaysFail none "postgresql" 3).1.success = false ∧
    (generate_and_execute_with_retry envAlwaysFail none "postgresql" 3).1.total_attempts = 3 ∧
    (generate_and_execute_with_retry envAlwaysFail none "postgresql" 3).1.attempts.length = 3 :=
  C2_always_fail_three_attempts envAlwaysFail none "postgresql"
    (fun n s r h => by
      simp only [envAlwaysFail] at h
      cases h
      rfl)

/-- C4 counterexample: an exception raised by the execution collaborator is
recorded with `error_type` Unknown, not with the classification of the
exception text (which here is SyntaxError). -/
theorem C4_counterexample :
    (generate_and_execute_with_retry envExecRaises none "postgresql" 3).1.attempts.get? 0 =
      some ⟨1, some "SELECT 1", some "syntax error near SELECT",
        ErrorType.unknown, false, none, none⟩ ∧
    categorize_error "syntax error near SELECT" = ErrorType.syntaxError ∧
    ErrorType.unknown ≠ ErrorType.syntaxError := by
  refine ⟨by decide, by decide, by decide⟩

/-- C4 amended: an exception raised during an attempt is caught and recorded
as a failed `CorrectionAttempt` whose `error` is the exception text — with
`error_type` fixed at Unknown rather than the classification of that text —
and short of the retry budget the loop proceeds to the next attempt; a run
either succeeds or records exactly `max_retries` attempts. -/
theorem C4_exception_recorded_amended :
    (∀ (env : Env) (store : Option Learner.Store) (dbType : String)
       (maxR fuel n : Nat) (genRes : Option GenResult) (sql0 le : Option String)
       (atts : List CorrectionAttempt) (c : Calls) (g2 : Option GenResult)
       (s2 : Option String) (e : String) (c1 : Calls),
       ¬ maxR ≤ n →
       attemptBody env store dbType n genRes sql0 le c = (.exn g2 s2 e, c1) →
       loop env dbType maxR (fuel + 1) n genRes sql0 le atts store c =
         loop env dbType maxR fuel (n + 1) g2 s2 (some e)
           (atts ++ [⟨n, some (s2.getD ""), some e, ErrorType.unknown, false, none, none⟩])
           store c1) ∧
    (∀ (env : Env) (store : Option Learner.Store) (dbType : String) (maxR : Nat),
       (generate_and_execute_with_retry env store dbType maxR).1.success = true ∨
       (generate_and_execute_with_retry env store dbType maxR).1.attempts.length = maxR) := by
  constructor
  · intro env store dbType maxR fuel n genRes sql0 le atts c g2 s2 e c1 hn hb
    simp only [loop, hb, hn, if_false]
  · intro env store dbType maxR
    have h2 := loop_shape env dbType maxR maxR 1 none none none [] store {} (by omega) (by simp)
    simp only [generate_and_execute_with_retry]
    rcases h2 with h2 | ⟨_, hl, _⟩
    · exact Or.inl h2
    · exact Or.inr hl

/-- Witness for C4 on the exception-raising execution stub: the caught
first-attempt exception is recorded as Unknown and the loop moves on. -/
theorem C4_witness :
    (loop envExecRaises "postgresql" 3 3 1 none none none [] none {} =
      loop envExecRaises "postgresql" 3 2 2 (some ⟨"SELECT 1"⟩) (some "SELECT 1")
        (some "syntax error near SELECT")
        [⟨1, some "SELECT 1", some "syntax error near SELECT",
          ErrorType.unknown, false, none, none⟩]
        none ⟨1, 0, 1, 0, 0, 0⟩) ∧
    ((generate_and_execute_with_retry envExecRaises none "postgresql" 3).1.success = true ∨
     (generate_and_execute_with_retry envExecRaises none "postgresql" 3).1.attempts.length = 3) :=
  ⟨C4_exception_recorded_amended.1 envExecRaises none "postgresql" 3 2 1 none none none [] {}
      (some ⟨"SELECT 1"⟩) (some "SELECT 1") "syntax error near SELECT" ⟨1, 0, 1, 0, 0, 0⟩
      (by decide) rfl,
   C4_exception_recorded_amended.2 envExecRaises none "postgresql" 3⟩

end DatabaseGuru

namespace DatabaseGuru

open DatabaseGuru.SelfCorrecting DatabaseGuru.Agent DatabaseGuru.Fixtures

theorem execPhase_fixError (env : Env) (n : Nat) (genRes : Option GenResult)
    (sql : Option String) (c : Calls) :
    (execPhase env n genRes sql c).2.fixError = c.fixError := by
  unfold execPhase
  split
  · rfl
  · split <;> rfl

/-- C1: on a retry round with a configured schema fixer, a successful
`quick_fix` at confidence ≥ 0.7 makes the iteration adopt its `fixed_sql`
and go straight to execution — `fix_sql_error` is not called that round —
and on the concrete misspelled-table scenario the run succeeds with
`total_attempts = 2`, `self_corrected = true` and zero `fix_error` calls. -/
theorem C1_quick_fix_short_circuit :
    (∀ (env : Env) (store : Option Learner.Store) (dbType : String) (n : Nat)
       (genRes : Option GenResult) (sql0 le : Option String) (c : Calls)
       (schema : SchemaFix.Schema) (qf : SchemaFix.QuickFix),
       n ≠ 1 →
       env.schemaFixer = some schema →
       SchemaFix.quick_fix schema sql0 (categorize_error (le.getD "")) (le.getD "")
         (extract_error_context (le.getD "") (categorize_error (le.getD ""))) = qf →
       qf.success = true →
       mkRat 7 10 ≤ qf.confidence →
       attemptBody env store dbType n genRes sql0 le c =
         execPhase env n genRes qf.fixed_sql { c with quickFix := c.quickFix + 1 } ∧
       (attemptBody env store dbType n genRes sql0 le c).2.fixError = c.fixError) ∧
    ((generate_and_execute_with_retry envC1 none "postgresql" 3).1.success = true ∧
     (generate_and_execute_with_retry envC1 none "postgresql" 3).1.total_attempts = 2 ∧
     (generate_and_execute_with_retry envC1 none "postgresql" 3).1.self_corrected = true ∧
     (generate_and_execute_with_retry envC1 none "postgresql" 3).2.1.fixError = 0) := by
  constructor
  · intro env store dbType n genRes sql0 le c schema qf hn hsf hqf hsucc hconf
    have hq : quickFixStep env sql0 (categorize_error (le.getD "")) (le.getD "")
        (extract_error_context (le.getD "") (categorize_error (le.getD ""))) c
        = (some qf.fixed_sql, { c with quickFix := c.quickFix + 1 }) := by
      simp only [quickFixStep, hsf]
      rw [hqf]
      simp [hsucc, hconf]
    have hbody : attemptBody env store dbType n genRes sql0 le c =
        execPhase env n genRes qf.fixed_sql { c with quickFix := c.quickFix + 1 } := by
      simp only [attemptBody, if_neg hn, hq]
    refine ⟨hbody, ?_⟩
    rw [hbody]
    exact execPhase_fixError env n genRes qf.fixed_sql _
  · refine ⟨by decide, by decide, by decide, by decide⟩

/-- Witness for C1 at the second attempt of the concrete scenario: the
quick fix for `usrs` → `users` (confidence 8/9) short-circuits the round. -/
theorem C1_witness :
    attemptBody envC1 none "postgresql" 2 (some ⟨"SELECT * FROM usrs"⟩)
        (some "SELECT * FROM usrs") (some "relation \"usrs\" does not exist")
        ⟨1, 0, 1, 0, 0, 0⟩ =
      execPhase envC1 2 (some ⟨"SELECT * FROM usrs"⟩) (some "SELECT * FROM users")
        ⟨1, 0, 1, 1, 0, 0⟩ ∧
    (attemptBody envC1 none "postgresql" 2 (some ⟨"SELECT * FROM usrs"⟩)
        (some "SELECT * FROM usrs") (some "relation \"usrs\" does not exist")
        ⟨1, 0, 1, 0, 0, 0⟩).2.fixError = 0 :=
  C1_quick_fix_short_circuit.1 envC1 none "postgresql" 2 (some ⟨"SELECT * FROM usrs"⟩)
    (some "SELECT * FROM usrs") (some "relation \"usrs\" does not exist")
    ⟨1, 0, 1, 0, 0, 0⟩ schemaUsers
    ⟨true, some "SELECT * FROM users", some "table_name", some "usrs", some "users",
      mkRat 8 9, some "Corrected table name: usrs → users"⟩
    (by decide) rfl (by decide) rfl (by decide)

theorem ewrLoop_counters (env : Env) (maxR : Nat) :
    ∀ (fuel n : Nat) (cur : String) (le : Option String)
      (atts : List AttemptInfo) (c : Calls),
      ((ewrLoop env maxR fuel n cur le atts c).2.quickFix,
       (ewrLoop env maxR fuel n cur le atts c).2.findApplicable,
       (ewrLoop env maxR fuel n cur le atts c).2.learn)
        = (c.quickFix, c.findApplicable, c.learn) := by
  intro fuel
  induction fuel with
  | zero => intro n cur le atts c; rfl
  | succ f ih =>
      intro n cur le atts c
      rcases he : env.execute n (some cur) with e | exec
      · by_cases hn : maxR ≤ n
        · simp only [ewrLoop, he, hn, if_true]
        · simp only [ewrLoop, he, hn, if_false]
          exact ih _ _ _ _ _
      · by_cases hs : exec.success = true
        · simp only [ewrLoop, he, hs, if_true]
        · have hs' : exec.success = false := by simpa using hs
          by_cases hn : maxR ≤ n
          · simp only [ewrLoop, he, hs', Bool.false_eq_true, if_false, hn, if_true]
          · simp only [ewrLoop, he, hs', Bool.false_eq_true, if_false, hn, if_false]
            split
            · exact ih _ _ _ _ _
            · exact ih _ _ _ _ _

/-- C10: `execute_with_retry` repairs failures only through `fix_sql_error`:
it never calls the schema fixer's `quick_fix`, never queries the learner for
applicable corrections and never records a learned correction — whereas a
`generate_and_execute_with_retry` run on the concrete two-attempt scenario
does all three. -/
theorem C10_repair_only_via_fix_error :
    (∀ (env : Env) (sql : String) (maxR : Nat),
       (execute_with_retry env sql maxR).2.quickFix = 0 ∧
       (execute_with_retry env sql maxR).2.findApplicable = 0 ∧
       (execute_with_retry env sql maxR).2.learn = 0) ∧
    (1 ≤ (generate_and_execute_with_retry envC10
            (some Learner.emptyStore) "postgresql" 3).2.1.quickFix ∧
     1 ≤ (generate_and_execute_with_retry envC10
            (some Learner.emptyStore) "postgresql" 3).2.1.findApplicable ∧
     1 ≤ (generate_and_execute_with_retry envC10
            (some Learner.emptyStore) "postgresql" 3).2.1.learn) := by
  constructor
  · intro env sql maxR
    have h := ewrLoop_counters env maxR maxR 1 sql none [] {}
    simp only [Prod.mk.injEq] at h
    simp only [execute_with_retry]
    exact ⟨h.1, h.2.1, h.2.2⟩
  · refine ⟨by decide, by decide, by decide⟩

end DatabaseGuru

namespace DatabaseGuru.Difflib

open DatabaseGuru

theorem npRun_le (l : List Char) : ∀ i, npRun l i ≤ i := by
  intro i
  induction i with
  | zero => simp [npRun]
  | succ m ih =>
      rw [npRun]
      split
      · omega
      · omega

theorem npRun_ge (l : List Char) :
    ∀ (v e : Nat), v ≤ e + 1 → (∀ t, t < v → npGood l (e - t) = true) →
      v ≤ npRun l (e + 1) := by
  intro v
  induction v with
  | zero => intro e _ _; exact Nat.zero_le _
  | succ w ih =>
      intro e hv h
      have hg : npGood l e = true := by
        have := h 0 (Nat.succ_pos w)
        simpa using this
      rw [npRun, if_pos hg]
      have hw : w ≤ npRun l e := by
        cases e with
        | zero => omega
        | succ f =>
            exact ih f (by omega) (fun t ht => by
              have := h (t + 1) (by omega)
              simpa [Nat.succ_sub_succ] using this)
      omega

theorem rowBest_append (j2 : Nat → Nat) (i : Nat) :
    ∀ (l1 l2 : List Nat) (best : Best),
      rowBest j2 i (l1 ++ l2) best = rowBest j2 i l2 (rowBest j2 i l1 best) := by
  intro l1
  induction l1 with
  | nil => intro l2 best; rfl
  | cons j js ih =>
      intro l2 best
      simp only [List.cons_append, rowBest]
      exact ih l2 _

theorem rowBest_no_update (j2 : Nat → Nat) (i : Nat) :
    ∀ (js : List Nat) (best : Best),
      (∀ j ∈ js, rowK j2 j ≤ best.bestsize) →
      rowBest j2 i js best = best := by
  intro js
  induction js with
  | nil => intro best _; rfl
  | cons j js ih =>
      intro best h
      have hj := h j (List.mem_cons_self j js)
      simp only [rowBest]
      rw [if_neg (by omega)]
      exact ih best (fun x hx => h x (List.mem_cons_of_mem j hx))

end DatabaseGuru.Difflib

namespace DatabaseGuru.Difflib

theorem rowJs_good (l : List Char) (i : Nat) (hi : i < l.length)
    (hg : isPopular l (l.getD i (Char.ofNat 0)) = false) :
    rowJs (b2j l) 0 l.length (l.getD i (Char.ofNat 0)) =
      (List.range i).filter
        (fun j => l.getD j (Char.ofNat 0) = l.getD i (Char.ofNat 0)) ++
      i :: (List.range' (i + 1) (l.length - (i + 1))).filter
        (fun j => l.getD j (Char.ofNat 0) = l.getD i (Char.ofNat 0)) := by
  have hb : b2j l (l.getD i (Char.ofNat 0)) = positions l (l.getD i (Char.ofNat 0)) := by
    rw [b2j, if_neg (by rw [hg]; exact Bool.false_ne_true)]
  rw [rowJs, hb]
  have hsub : ∀ j ∈ positions l (l.getD i (Char.ofNat 0)),
      (decide (0 ≤ j) && decide (j < l.length)) = true := by
    intro j hj
    rw [positions] at hj
    have hr := List.mem_range.mp (List.mem_filter.mp hj).1
    simp [hr]
  rw [List.filter_eq_self.mpr hsub]
  rw [positions]
  have hsplit : List.range l.length =
      List.range i ++ i :: List.range' (i + 1) (l.length - (i + 1)) := by
    rw [List.range_eq_range' l.length, List.range_eq_range' i]
    have h2 : l.length = (l.length - i) + i := by omega
    conv_lhs => rw [h2]
    rw [← List.range'_append_1 0 i (l.length - i)]
    have h3 : l.length - i = (l.length - (i + 1)) + 1 := by omega
    rw [h3, Nat.zero_add, List.range'_succ i (l.length - (i + 1)) 1]
  rw [hsplit, List.filter_append, List.filter_cons_of_pos (by simp)]

end DatabaseGuru.Difflib

namespace DatabaseGuru.Difflib

theorem dpInv_step (l : List Char) (i : Nat) (hi : i < l.length)
    (st : (Nat → Nat) × Best) (h : dpInv l i st) :
    dpInv l (i + 1)
      (newJ2len st.1 (rowJs (b2j l) 0 l.length (l.getD i (Char.ofNat 0))),
       rowBest st.1 i (rowJs (b2j l) 0 l.length (l.getD i (Char.ofNat 0))) st.2) := by
  unfold dpInv at h
  obtain ⟨hA, hB, hD, hE, hC⟩ := h
  unfold chainOK at hC
  by_cases hg : isPopular l (l.getD i (Char.ofNat 0)) = true
  · -- popular row: the whole row is skipped
    have hjs : rowJs (b2j l) 0 l.length (l.getD i (Char.ofNat 0)) = [] := by
      rw [rowJs, b2j, if_pos hg]
      rfl
    have hgood : npGood l i = false := by
      rw [npGood, hg]
      rfl
    rw [hjs]
    unfold dpInv
    refine ⟨hA, (show st.2.bestj + st.2.bestsize ≤ i + 1 by omega), ?_, ?_, ?_⟩
    · intro r hr
      rcases Nat.lt_or_ge r (i + 1) with h1 | h1
      · exact hD r (by omega)
      · have hr1 : r = i + 1 := by omega
        subst hr1
        rw [npRun, if_neg (by rw [hgood]; exact Bool.false_ne_true)]
        exact Nat.zero_le _
    · show newJ2len st.1 [] (i + 1 - 1) = npRun l (i + 1)
      rw [npRun, if_neg (by rw [hgood]; exact Bool.false_ne_true)]
      simp [newJ2len]
    · intro j hj
      simp [newJ2len] at hj
  · -- non-popular row
    have hg' : isPopular l (l.getD i (Char.ofNat 0)) = false := by
      cases hq : isPopular l (l.getD i (Char.ofNat 0))
      · rfl
      · exact absurd hq hg
    have hgood : npGood l i = true := by
      rw [npGood, hg']
      rfl
    have hjs := rowJs_good l i hi hg'
    set c := l.getD i (Char.ofNat 0) with hc
    set L := (List.range i).filter (fun j => l.getD j (Char.ofNat 0) = c) with hLdef
    set R := (List.range' (i + 1) (l.length - (i + 1))).filter
      (fun j => l.getD j (Char.ofNat 0) = c) with hRdef
    have hmemL : ∀ j ∈ L, j < i ∧ l.getD j (Char.ofNat 0) = c := by
      intro j hj
      rw [hLdef] at hj
      have := List.mem_filter.mp hj
      exact ⟨List.mem_range.mp this.1, of_decide_eq_true this.2⟩
    have hmemR : ∀ j ∈ R, i + 1 ≤ j ∧ l.getD j (Char.ofNat 0) = c := by
      intro j hj
      rw [hRdef] at hj
      have := List.mem_filter.mp hj
      exact ⟨(List.mem_range'_1.mp this.1).1, of_decide_eq_true this.2⟩
    have hkbound : ∀ j, rowK st.1 j ≤ j + 1 := by
      intro j
      rw [rowK]
      split
      · omega
      · rcases Nat.eq_zero_or_pos (st.1 (j - 1)) with h0 | h0
        · omega
        · have := (hC (j - 1) h0).1
          omega
    have hkrow : ∀ j, rowK st.1 j ≤ i + 1 := by
      intro j
      rw [rowK]
      split
      · omega
      · rcases Nat.eq_zero_or_pos (st.1 (j - 1)) with h0 | h0
        · omega
        · have := (hC (j - 1) h0).2.1
          omega
    have hcols : ∀ j, l.getD j (Char.ofNat 0) = c →
        ∀ t, t < rowK st.1 j → npGood l (j - t) = true := by
      intro j hcj t ht
      cases t with
      | zero =>
          show npGood l (j - 0) = true
          rw [Nat.sub_zero, npGood, hcj, hg']
          rfl
      | succ s =>
          rw [rowK] at ht
          split at ht
          · omega
          · have hpos : 0 < st.1 (j - 1) := by omega
            have hch := hC (j - 1) hpos
            have hgs := hch.2.2.1 s (by omega)
            have harith : j - (s + 1) = (j - 1) - s := by omega
            rw [harith]
            exact hgs
    have hrowsNew : ∀ j, ∀ t, t < rowK st.1 j → npGood l (i - t) = true := by
      intro j t ht
      cases t with
      | zero =>
          show npGood l (i - 0) = true
          rw [Nat.sub_zero]
          exact hgood
      | succ s =>
          rw [rowK] at ht
          split at ht
          · omega
          · have hpos : 0 < st.1 (j - 1) := by omega
            have hgs := (hC (j - 1) hpos).2.2.2 s (by omega)
            have harith : i - (s + 1) = (i - 1) - s := by omega
            rw [harith]
            exact hgs
    have hNsucc : npRun l (i + 1) = npRun l i + 1 := by
      rw [npRun, if_pos hgood]
    have hKeq : rowK st.1 i = npRun l (i + 1) := by
      rw [hNsucc, rowK]
      cases i with
      | zero =>
          rw [if_pos rfl]
          simp [npRun]
      | succ m =>
          rw [if_neg (by omega)]
          rw [hE]
    have hKpos : 0 < npRun l (i + 1) := by omega
    have hKle : npRun l (i + 1) ≤ i + 1 := npRun_le l (i + 1)
    have hLno : ∀ j ∈ L, rowK st.1 j ≤ st.2.bestsize := by
      intro j hj
      obtain ⟨hji, hcj⟩ := hmemL j hj
      have h1 : rowK st.1 j ≤ npRun l (j + 1) :=
        npRun_ge l (rowK st.1 j) j (hkbound j) (hcols j hcj)
      have h2 : npRun l (j + 1) ≤ st.2.bestsize := hD (j + 1) (by omega)
      omega
    have hRno : ∀ (b1 : Best), npRun l (i + 1) ≤ b1.bestsize →
        ∀ j ∈ R, rowK st.1 j ≤ b1.bestsize := by
      intro b1 hb1 j hj
      obtain ⟨hji, hcj⟩ := hmemR j hj
      rw [rowK, if_neg (by omega)]
      rcases Nat.eq_zero_or_pos (st.1 (j - 1)) with h0 | h0
      · rw [h0]
        omega
      · have hch := hC (j - 1) h0
        have hvi : st.1 (j - 1) ≤ i := hch.2.1
        have hrun : st.1 (j - 1) ≤ npRun l i := by
          cases i with
          | zero => omega
          | succ m =>
              exact npRun_ge l (st.1 (j - 1)) m (by omega) (fun t ht => by
                have hgs := hch.2.2.2 t ht
                rw [Nat.succ_sub_one] at hgs
                exact hgs)
        omega
    -- the new j2len satisfies the pointwise clauses in both best cases
    have hEnew : newJ2len st.1 (L ++ i :: R) (i + 1 - 1) = npRun l (i + 1) := by
      rw [Nat.add_sub_cancel, newJ2len]
      rw [if_pos (List.mem_append_right L (List.mem_cons_self i R))]
      exact hKeq
    have hCnew : ∀ j, 0 < newJ2len st.1 (L ++ i :: R) j →
        chainOK l (i + 1) j (newJ2len st.1 (L ++ i :: R) j) := by
      intro j hj
      rw [newJ2len] at hj ⊢
      by_cases hmem : j ∈ L ++ i :: R
      · rw [if_pos hmem] at hj ⊢
        have hcj : l.getD j (Char.ofNat 0) = c := by
          rcases List.mem_append.mp hmem with hm | hm
          · exact (hmemL j hm).2
          · rcases List.mem_cons.mp hm with hm | hm
            · rw [hm]
            · exact (hmemR j hm).2
        refine ⟨hkbound j, hkrow j, hcols j hcj, ?_⟩
        intro t ht
        have := hrowsNew j t ht
        have harith : i + 1 - 1 - t = i - t := by omega
        rw [harith]
        exact this
      · rw [if_neg hmem] at hj
        omega
    rw [hjs]
    rw [rowBest_append]
    rw [rowBest_no_update st.1 i L st.2 hLno]
    by_cases hup : st.2.bestsize < rowK st.1 i
    · -- the diagonal entry improves the best
      have hcons : rowBest st.1 i (i :: R) st.2 =
          rowBest st.1 i R
            (Best.mk (i + 1 - rowK st.1 i) (i + 1 - rowK st.1 i) (rowK st.1 i)) := by
        simp only [rowBest]
        rw [if_pos hup]
      rw [hcons,
        rowBest_no_update st.1 i R _ (hRno _ (by simp only []; omega))]
      unfold dpInv
      refine ⟨rfl, ?_, ?_, hEnew, hCnew⟩
      · show (i + 1 - rowK st.1 i) + rowK st.1 i ≤ i + 1
        omega
      · intro r hr
        show npRun l r ≤ rowK st.1 i
        rcases Nat.lt_or_ge r (i + 1) with h1 | h1
        · have := hD r (by omega)
          omega
        · have hre : r = i + 1 := by omega
          subst hre
          omega
    · -- the best is unchanged
      have hcons : rowBest st.1 i (i :: R) st.2 = rowBest st.1 i R st.2 := by
        simp only [rowBest]
        rw [if_neg hup]
      have hKbest : npRun l (i + 1) ≤ st.2.bestsize := by omega
      rw [hcons, rowBest_no_update st.1 i R st.2 (hRno st.2 hKbest)]
      unfold dpInv
      refine ⟨hA, (show st.2.bestj + st.2.bestsize ≤ i + 1 by omega), ?_, hEnew, hCnew⟩
      intro r hr
      rcases Nat.lt_or_ge r (i + 1) with h1 | h1
      · exact hD r (by omega)
      · have hre : r = i + 1 := by omega
        subst hre
        exact hKbest

end DatabaseGuru.Difflib

namespace DatabaseGuru.Difflib

theorem dpLoop_inv (l : List Char) :
    ∀ (m i : Nat) (st : (Nat → Nat) × Best), dpInv l i st → i + m ≤ l.length →
      dpInv l (i + m) (dpLoop l (b2j l) 0 l.length (List.range' i m) st) := by
  intro m
  induction m with
  | zero =>
      intro i st h _
      simpa [dpLoop] using h
  | succ m ih =>
      intro i st h hle
      rw [List.range'_succ i m 1]
      rw [dpLoop]
      have hstep := dpInv_step l i (by omega) st h
      have := ih (i + 1) _ hstep (by omega)
      have harith : i + (m + 1) = (i + 1) + m := by omega
      rw [harith]
      exact this

theorem extendLower_diag (l : List Char) :
    ∀ (d s : Nat),
      extendLower l l (fun _ => false) false 0 0 d (Best.mk d d s) = Best.mk 0 0 (s + d) := by
  intro d
  induction d with
  | zero => intro s; rfl
  | succ d ih =>
      intro s
      rw [extendLower]
      rw [if_pos ⟨Nat.succ_pos d, Nat.succ_pos d, rfl, rfl⟩]
      have harith : d + 1 - 1 = d := rfl
      show extendLower l l (fun _ => false) false 0 0 d (Best.mk (d + 1 - 1) (d + 1 - 1) (s + 1))
        = Best.mk 0 0 (s + (d + 1))
      rw [harith, ih (s + 1)]
      have : s + 1 + d = s + (d + 1) := by omega
      rw [this]

theorem extendUpper_diag (l : List Char) (n : Nat) :
    ∀ (f m : Nat), m + f = n →
      extendUpper l l (fun _ => false) false n n f (Best.mk 0 0 m) = Best.mk 0 0 n := by
  intro f
  induction f with
  | zero =>
      intro m hm
      rw [extendUpper]
      rw [show m = n by omega]
  | succ f ih =>
      intro m hm
      rw [extendUpper]
      rw [if_pos ⟨by show 0 + m < n; omega, by show 0 + m < n; omega, rfl, rfl⟩]
      exact ih (m + 1) (by omega)

theorem find_longest_match_self (l : List Char) :
    find_longest_match l l (b2j l) (fun _ => false) 0 l.length 0 l.length =
      Best.mk 0 0 l.length := by
  have h0 : dpInv l 0 (fun _ => 0, Best.mk 0 0 0) := by
    unfold dpInv
    refine ⟨rfl, Nat.le.refl, ?_, ?_, ?_⟩
    · intro r hr
      have : r = 0 := by omega
      subst this
      simp [npRun]
    · simp [npRun]
    · intro j hj
      simp at hj
  have hloop := dpLoop_inv l l.length 0 (fun _ => 0, Best.mk 0 0 0) h0 (by omega)
  rw [Nat.zero_add] at hloop
  unfold dpInv at hloop
  set st := dpLoop l (b2j l) 0 l.length (List.range' 0 l.length) (fun _ => 0, Best.mk 0 0 0)
    with hstdef
  obtain ⟨hA, hB, -, -, -⟩ := hloop
  have hst2 : st.2 = Best.mk st.2.bestj st.2.bestj st.2.bestsize := by
    have he : st.2 = Best.mk st.2.besti st.2.bestj st.2.bestsize := rfl
    rw [he, hA]
  rw [find_longest_match]
  rw [Nat.sub_zero]
  rw [← hstdef]
  rw [hst2]
  have h1 := extendLower_diag l st.2.bestj st.2.bestsize
  show extendUpper l l (fun _ => false) true l.length l.length _
      (extendLower l l (fun _ => false) true 0 0 _
        (extendUpper l l (fun _ => false) false l.length l.length _
          (extendLower l l (fun _ => false) false 0 0
            (Best.mk st.2.bestj st.2.bestj st.2.bestsize).besti
            (Best.mk st.2.bestj st.2.bestj st.2.bestsize)))) = Best.mk 0 0 l.length
  rw [show (Best.mk st.2.bestj st.2.bestj st.2.bestsize).besti = st.2.bestj from rfl]
  rw [h1]
  have h2 : extendUpper l l (fun _ => false) false l.length l.length
      (l.length - ((Best.mk 0 0 (st.2.bestsize + st.2.bestj)).besti
        + (Best.mk 0 0 (st.2.bestsize + st.2.bestj)).bestsize))
      (Best.mk 0 0 (st.2.bestsize + st.2.bestj)) = Best.mk 0 0 l.length := by
    apply extendUpper_diag l l.length
    show st.2.bestsize + st.2.bestj + (l.length - (0 + (st.2.bestsize + st.2.bestj))) = l.length
    omega
  rw [h2]
  rw [show (Best.mk 0 0 l.length : Best).besti = 0 from rfl]
  rw [show extendLower l l (fun _ => false) true 0 0 0 (Best.mk 0 0 l.length)
      = Best.mk 0 0 l.length from rfl]
  show extendUpper l l (fun _ => false) true l.length l.length
      (l.length - (0 + l.length)) (Best.mk 0 0 l.length) = Best.mk 0 0 l.length
  rw [show l.length - (0 + l.length) = 0 by omega]
  rfl

theorem ratio_self (l : List Char) : ratio l l = 1 := by
  by_cases hn : l.length = 0
  · rw [ratio]
    simp [hn]
  · have hflm := find_longest_match_self l
    have hms : matchesSum l l (b2j l) (fun _ => false)
        (l.length + l.length + 1) 0 l.length 0 l.length = l.length := by
      rw [matchesSum]
      rw [hflm]
      rw [if_neg (by simpa using hn)]
      rw [if_neg (by simp)]
      rw [if_neg (by simp)]
      simp
    rw [ratio]
    simp only [hms]
    rw [if_pos (by omega)]
    rw [Rat.mkRat_eq_div]
    have hq : ((l.length : Int) : ℚ) ≠ 0 := by
      simp [hn]
    push_cast
    field_simp
    ring

end DatabaseGuru.Difflib

namespace DatabaseGuru

open DatabaseGuru.SchemaFix DatabaseGuru.Fixtures

/-- C9 counterexample: `similarity` is not symmetric — difflib's
Ratcliff/Obershelp ratio depends on the argument order. -/
theorem C9_counterexample :
    similarity gestaltA gestaltB = mkRat 3 5 ∧
    similarity gestaltB gestaltA = mkRat 13 20 ∧
    similarity gestaltA gestaltB ≠ similarity gestaltB gestaltA := by
  have h1 : similarity gestaltA gestaltB = mkRat 3 5 := by decide
  have h2 : similarity gestaltB gestaltA = mkRat 13 20 := by decide
  refine ⟨h1, h2, ?_⟩
  rw [h1, h2]
  decide

/-- C9 amended: `similarity(x, x) = 1` for every non-empty string `x` (the
identity half of the claim holds; symmetry does not). -/
theorem C9_identity_amended (x : String) (_hx : x ≠ "") : similarity x x = 1 :=
  Difflib.ratio_self (lowerStr x).data

/-- Witness for C9 at a concrete non-empty string. -/
theorem C9_witness : ("users" : String) ≠ "" ∧ similarity "users" "users" = 1 :=
  ⟨by decide, C9_identity_amended "users" (by decide)⟩

end DatabaseGuru
